import Mathlib

/-!
# Shallow embedding of `bgl_log_simulator.py` (class `BGLLogSimulator`)

The Python program generates synthetic BGL-style cluster logs.  Its mutable
state is: a per-node status table (`self.node_status`, strings), a simulation
clock (`self.current_time`), and a registry of active anomalies
(`self.active_anomalies : dict kind -> list of node ids`).

Randomness is modelled by explicit choice values: every call of the Python
`random` module that influences control flow or emitted data becomes an
explicit argument, constrained by a validity predicate that captures exactly
the range of the corresponding random draw (Python `random.randint(a, b)` is
inclusive on both ends).  The stream of clock increments drawn by
`_generate_timestamp` (`random.random() * 5`, a nonnegative real) is part of
the state (`ivs`), consumed one value per call.

Random values that only appear inside the text of a message (pids, addresses,
percentages, ...) do not influence control flow, the clock, the status table
or the registry; `spec.md` §1 declares placeholder resolution an out-of-scope
external collaborator.  We model only the substitutions the claims depend on:
`{node_id}` (always filled) and `{timestamp}` (whose resolution advances the
simulation clock an extra time, `bgl_log_simulator.py:346-348`); other
placeholder markers are left in place in the message text.

Timestamps are modelled as rationals; the Python `strftime` rendering
`"%Y-%m-%d-%H.%M.%S.%f"` of a `datetime` is order-preserving, so
non-decreasing rendered strings correspond to non-decreasing clock values.
-/

namespace BGLSim

/-- The five anomaly kinds, `bgl_log_simulator.py:393-399`.  The Python code
keys the `active_anomalies` defaultdict by these five strings and never by any
other key, so a total function from this finite type is a faithful model of
the registry. -/
inductive AnomalyKind
  | network_partition
  | rack_power_failure
  | filesystem_corruption
  | memory_errors
  | overheating
deriving DecidableEq, Repr

/-- All five anomaly kinds (the list passed to `random.choice`,
`bgl_log_simulator.py:393`). -/
def AnomalyKind.all : List AnomalyKind :=
  [.network_partition, .rack_power_failure, .filesystem_corruption,
   .memory_errors, .overheating]

/-- The degraded node status each kind assigns at onset
(`bgl_log_simulator.py:412,443,464,478,514`). -/
def degradedStatus : AnomalyKind → String
  | .network_partition => "NETWORK_DEGRADED"
  | .rack_power_failure => "POWERED_OFF"
  | .filesystem_corruption => "FILESYSTEM_ERROR"
  | .memory_errors => "MEMORY_ERROR"
  | .overheating => "OVERHEATING"

/-- Constructor configuration, `bgl_log_simulator.py:8-26`.  `num_components`
is informational only (the catalog is fixed); `error_rate` only reweights the
severity distribution of normal logs, which is modelled as a free choice among
the four levels (all four always have positive probability). -/
structure Config where
  num_nodes : Nat
  num_components : Nat
  error_rate : ℚ
  anomaly_probability : ℚ
deriving DecidableEq, Repr

/-- One emitted log record, `bgl_log_simulator.py:242-244`:
`f"{timestamp} {severity} {node_id:04d} {component}: {message}"`.  The
timestamp is kept as the numeric clock value it renders. -/
structure LogRecord where
  time : ℚ
  nodeId : Nat
  component : String
  severity : String
  message : String
deriving DecidableEq, Repr

/-- Simulator state: node status table (`self.node_status`, total over ℕ with
all ids outside `[0, num_nodes)` never touched), simulation clock
(`self.current_time`), active-anomaly registry (`self.active_anomalies`),
and the stream of future clock increments with a read cursor. -/
structure SimState where
  nodeStatus : Nat → String
  currentTime : ℚ
  active : AnomalyKind → List Nat
  ivs : Nat → ℚ
  ivIdx : Nat

/-- `self.node_status[node_id] = st`. -/
def setNodeStatus (s : SimState) (node_id : Nat) (st : String) : SimState :=
  { s with nodeStatus := fun m => if m = node_id then st else s.nodeStatus m }

/-- `self.active_anomalies[k] = ns`. -/
def setActive (s : SimState) (k : AnomalyKind) (ns : List Nat) : SimState :=
  { s with active := fun k' => if k' = k then ns else s.active k' }

/-- `any(self.active_anomalies.values())` is false: no kind has a non-empty
node list (`bgl_log_simulator.py:713,719`; also the combined emptiness tests
at lines 540-548). -/
def allInactive (s : SimState) : Bool :=
  AnomalyKind.all.all fun k => (s.active k).isEmpty

/-- The clock increments drawn by `_generate_timestamp` are
`random.random() * 5`, hence nonnegative. -/
def nonnegIvs (s : SimState) : Prop :=
  ∀ n, 0 ≤ s.ivs n

/-- `_generate_timestamp`, `bgl_log_simulator.py:235-240`: advance the clock
by the next increment and return the new clock value (which the caller embeds
in the record). -/
def generate_timestamp (s : SimState) : ℚ × SimState :=
  let t := s.currentTime + s.ivs s.ivIdx
  (t, { s with currentTime := t, ivIdx := s.ivIdx + 1 })

/-- Zero-padded node id, Python `f"{node_id:04d}"`. -/
def pad4 (n : Nat) : String :=
  let d := toString n
  if d.length < 4 then String.mk (List.replicate (4 - d.length) '0') ++ d else d

/-- Zero-padded rack id, Python `f"R{rack_id:02d}"` without the leading R. -/
def pad2 (n : Nat) : String :=
  let d := toString n
  if d.length < 2 then String.mk (List.replicate (2 - d.length) '0') ++ d else d

/-- Substring occurrence test (Python `pattern in message`), structurally
recursive on the character list. -/
def strOccurs (pat : List Char) : List Char → Bool
  | [] => pat.isEmpty
  | c :: cs => pat.isPrefixOf (c :: cs) || strOccurs pat cs

/-- One left-to-right pass of non-overlapping pattern replacement (Python
`str.replace`), with explicit fuel so the recursion is structural. -/
def replaceChars (pat rep : List Char) : Nat → List Char → List Char
  | 0, s => s
  | _ + 1, [] => []
  | fuel + 1, c :: cs =>
    if pat.isPrefixOf (c :: cs) && !pat.isEmpty then
      rep ++ replaceChars pat rep fuel ((c :: cs).drop pat.length)
    else
      c :: replaceChars pat rep fuel cs

/-- Python `str.replace` (all non-overlapping occurrences, left to right). -/
def strReplace (s pat rep : String) : String :=
  String.mk (replaceChars pat.data rep.data s.data.length s.data)

/-- Does the message still contain the `{timestamp}` placeholder
(`bgl_log_simulator.py:346`)? -/
def hasTimestampPh (msg : String) : Bool :=
  strOccurs "{timestamp}".data msg.data

/-- `_fill_template_placeholders`, `bgl_log_simulator.py:246-389`, reduced to
the two substitutions with modelled effect: `{node_id}` is replaced by the
padded id, and a `{timestamp}` placeholder is resolved by calling
`_generate_timestamp` (advancing the shared clock) and splicing the rendered
time.  All other placeholders draw message-local random values and are left
in place here. -/
def fill_template_placeholders (template : String) (node_id : Nat)
    (s : SimState) : String × SimState :=
  let msg := strReplace template "{node_id}" (pad4 node_id)
  if hasTimestampPh msg then
    let p := generate_timestamp s
    (strReplace msg "{timestamp}"
      (toString p.1.num ++ "." ++ toString p.1.den), p.2)
  else
    (msg, s)

/-- One pending emission: an optional status assignment performed just before
the record is built (the Python loops interleave
`self.node_status[n] = ...` with record construction), the record's node id,
component, severity, and the message template to fill. -/
structure EmitItem where
  setSt : Option String
  nodeId : Nat
  component : String
  severity : String
  template : String
deriving DecidableEq, Repr

/-- Perform an optional status assignment. -/
def applySet (s : SimState) (o : Option String) (node_id : Nat) : SimState :=
  match o with
  | some st => setNodeStatus s node_id st
  | none => s

/-- Build one record: optionally set the node's status, fill the template
(possibly advancing the clock), stamp a fresh timestamp, format the entry.
This is the common shape of every record-producing loop body in
`_create_anomaly` / `_continue_anomaly` / `generate_logs`. -/
def emitOne (s : SimState) (it : EmitItem) : LogRecord × SimState :=
  let s0 := applySet s it.setSt it.nodeId
  let m := fill_template_placeholders it.template it.nodeId s0
  let p := generate_timestamp m.2
  ({ time := p.1, nodeId := it.nodeId, component := it.component,
     severity := it.severity, message := m.1 }, p.2)

/-- Emit a list of records in sequence, threading the state. -/
def emitMany : SimState → List EmitItem → List LogRecord × SimState
  | s, [] => ([], s)
  | s, it :: rest =>
    let p := emitOne s it
    let q := emitMany p.2 rest
    (p.1 :: q.1, q.2)

/-- Severity of the `i`-th record of a memory-error cascade of length
`error_count`, `bgl_log_simulator.py:484-494`. -/
def memorySeverity (i error_count : Nat) : String :=
  if i < 2 then "WARNING"
  else if i < error_count - 1 then "ERROR"
  else "FATAL"

/-- Template of the `i`-th record of a memory-error cascade (the random
`{dimm_id}` substitution in the middle branch is message-local and left in
place). -/
def memoryTemplate (i error_count : Nat) : String :=
  if i < 2 then "Memory ECC error detected at address 0x{address} on node {node_id}"
  else if i < error_count - 1 then "Multiple memory errors detected on node {node_id}, DIMM {dimm_id} failing"
  else "Uncorrectable memory errors on node {node_id}, taking node offline"

/-- Severity of an overheating onset record as a function of the node's drawn
temperature, `bgl_log_simulator.py:517-525`. -/
def overheatSeverity (temp : Nat) : String :=
  if temp > 90 then "FATAL" else if temp > 85 then "ERROR" else "WARNING"

/-- Template of an overheating onset record, before the `{temp}`
substitution. -/
def overheatTemplate (temp : Nat) : String :=
  if temp > 90 then "CRITICAL: Temperature at {temp}°C on node {node_id}, emergency shutdown initiated"
  else if temp > 85 then "Temperature threshold exceeded at {temp}°C on node {node_id}, throttling enabled"
  else "High temperature warning at {temp}°C on node {node_id}"

/-- The random draws of one `_create_anomaly` call: the chosen kind together
with its kind-specific draws (`bgl_log_simulator.py:391-536`).
`random.randint(a, b)` is inclusive on both ends. -/
inductive CreateChoice
  | network_partition (start_node affected_count : Nat)
  | rack_power_failure (rack_id : Nat)
  | filesystem_corruption (nodes : List Nat) (fs_name : String)
  | memory_errors (node_id error_count : Nat)
  | overheating (start_node affected_count : Nat) (temps : List Nat)
deriving DecidableEq, Repr

/-- The exact ranges of the random draws of `_create_anomaly`:
`randint(0, num_nodes - 100)`, `randint(10, 100)`;
`randint(0, num_nodes // 32 - 1)`;
`randint(5, 20)` and `random.sample(range(num_nodes), _)` (distinct ids) with
`random.choice(["/home", "/scratch", "/tmp"])`;
`randint(0, num_nodes - 1)`, `randint(3, 10)`;
`randint(0, num_nodes - 32)`, `randint(5, 32)`, per node `randint(75, 95)`.
The `num_nodes` lower bounds record that the Python `randint`/`sample` calls
would raise on smaller clusters. -/
def createValid (cfg : Config) : CreateChoice → Bool
  | .network_partition st len =>
    decide (100 ≤ cfg.num_nodes) && decide (st ≤ cfg.num_nodes - 100) &&
    decide (10 ≤ len) && decide (len ≤ 100)
  | .rack_power_failure r =>
    decide (32 ≤ cfg.num_nodes) && decide (r + 1 ≤ cfg.num_nodes / 32)
  | .filesystem_corruption ns fs =>
    decide (5 ≤ ns.length) && decide (ns.length ≤ 20) &&
    ns.all (fun n => decide (n < cfg.num_nodes)) && decide ns.Nodup &&
    decide (fs ∈ ["/home", "/scratch", "/tmp"])
  | .memory_errors n c =>
    decide (n < cfg.num_nodes) && decide (3 ≤ c) && decide (c ≤ 10)
  | .overheating st len temps =>
    decide (32 ≤ cfg.num_nodes) && decide (st ≤ cfg.num_nodes - 32) &&
    decide (5 ≤ len) && decide (len ≤ 32) && decide (temps.length = len) &&
    temps.all fun t => decide (75 ≤ t) && decide (t ≤ 95)

/-- `_create_anomaly`, `bgl_log_simulator.py:391-536`.  Returns
`(messages, affected_nodes, new state)`; the registry entry of the chosen
kind is extended with the affected nodes after the emission loop. -/
def create_anomaly (s : SimState) : CreateChoice → List LogRecord × List Nat × SimState
  | .network_partition start_node affected_count =>
    let affected_nodes := List.range' start_node affected_count
    let q := emitMany s <| affected_nodes.map fun n =>
      { setSt := some "NETWORK_DEGRADED", nodeId := n, component := "NETWORK",
        severity := "ERROR",
        template := "Network connectivity lost on node {node_id}, isolating from cluster" }
    (q.1, affected_nodes,
      setActive q.2 .network_partition (q.2.active .network_partition ++ affected_nodes))
  | .rack_power_failure rack_id =>
    let start_node := rack_id * 32
    let affected_nodes := List.range' start_node 32
    let master : EmitItem :=
      { setSt := none, nodeId := start_node, component := "POWER",
        severity := "FATAL",
        template := strReplace "Power supply failure on rack {rack_id}, nodes shutting down"
          "{rack_id}" ("R" ++ pad2 rack_id) }
    let q := emitMany s <| master :: affected_nodes.map fun n =>
      { setSt := some "POWERED_OFF", nodeId := n, component := "POWER",
        severity := "ERROR",
        template := "Node {node_id} shutting down due to power failure" }
    (q.1, affected_nodes,
      setActive q.2 .rack_power_failure (q.2.active .rack_power_failure ++ affected_nodes))
  | .filesystem_corruption affected_nodes fs_name =>
    let q := emitMany s <| affected_nodes.map fun n =>
      { setSt := some "FILESYSTEM_ERROR", nodeId := n, component := "FILESYSTEM",
        severity := "ERROR",
        template := "Filesystem " ++ fs_name ++ " corruption detected on node {node_id}, remounting read-only" }
    (q.1, affected_nodes,
      setActive q.2 .filesystem_corruption (q.2.active .filesystem_corruption ++ affected_nodes))
  | .memory_errors node_id error_count =>
    let s0 := setNodeStatus s node_id "MEMORY_ERROR"
    let q := emitMany s0 <| (List.range error_count).map fun i =>
      { setSt := none, nodeId := node_id, component := "MEMORY",
        severity := memorySeverity i error_count,
        template := memoryTemplate i error_count }
    (q.1, [node_id],
      setActive q.2 .memory_errors (q.2.active .memory_errors ++ [node_id]))
  | .overheating start_node affected_count temps =>
    let affected_nodes := List.range' start_node affected_count
    let q := emitMany s <| (affected_nodes.zip temps).map fun p =>
      { setSt := some "OVERHEATING", nodeId := p.1, component := "TEMPERATURE",
        severity := overheatSeverity p.2,
        template := strReplace (overheatTemplate p.2) "{temp}" (toString p.2) }
    (q.1, affected_nodes,
      setActive q.2 .overheating (q.2.active .overheating ++ affected_nodes))

/-- The component of a continuation record per kind,
`bgl_log_simulator.py:647-698`. -/
def continueComponent : AnomalyKind → String
  | .network_partition => "NETWORK"
  | .rack_power_failure => "POWER"
  | .filesystem_corruption => "FILESYSTEM"
  | .memory_errors => "MEMORY"
  | .overheating => "TEMPERATURE"

/-- The three continuation template variants per kind
(`random.choice` over three alternatives; the message-local numeric
substitutions — attempt, minutes, rack id, inode count, dimm id, temperature —
are left in place). -/
def continueTemplates : AnomalyKind → List String
  | .network_partition =>
    ["Failed to reestablish network connectivity on node {node_id}",
     "Packet loss at {percent}% on node {node_id}, network degraded",
     "Retry {attempt} to reconnect node {node_id} failed"]
  | .rack_power_failure =>
    ["Power supply {psu} still offline on rack {rack_id}",
     "UPS battery at {percent}%, critical level",
     "Power restoration delayed, ETA {minutes} minutes"]
  | .filesystem_corruption =>
    ["Filesystem check found {count} corrupted inodes on node {node_id}",
     "Repair attempt {attempt} failed on node {node_id}",
     "I/O errors continue on device {device} on node {node_id}"]
  | .memory_errors =>
    ["Memory errors continue on node {node_id}, address range 0x{address}",
     "DIMM {dimm_id} scheduled for replacement on node {node_id}",
     "Uncorrectable memory error at 0x{address} on node {node_id}"]
  | .overheating =>
    ["Temperature still critical at {temp}°C on node {node_id}",
     "Cooling system failure persists on node {node_id}, temp {temp}°C",
     "Unable to reduce temperature below {temp}°C on node {node_id}"]

/-- The random draws of one `_continue_anomaly` call: the chosen active kind,
then either the resolution branch (the `random.random() < 0.1` draw) or the
continuation branch with its chosen node and template variant. -/
inductive ContinueChoice
  | resolve (k : AnomalyKind)
  | ongoing (k : AnomalyKind) (node_id : Nat) (variant : Nat)
deriving DecidableEq, Repr

/-- Ranges of the `_continue_anomaly` draws: the kind is chosen among kinds
with a non-empty node list (`bgl_log_simulator.py:545-550`); in the
continuation branch the node is `random.choice` from that kind's list and the
template one of three variants. -/
def contValid (s : SimState) : ContinueChoice → Bool
  | .resolve k => !(s.active k).isEmpty
  | .ongoing k n v =>
    !(s.active k).isEmpty && decide (n ∈ s.active k) && decide (v < 3)

/-- The resolution branch of `_continue_anomaly`,
`bgl_log_simulator.py:554-639`: restore every node of the kind's list to
OPERATIONAL (for `memory_errors` the single registered node, accessed as
`affected_nodes[0]`), emit the kind's INFO recovery records
(`rack_power_failure` additionally emits a master record on
`affected_nodes[0]` first), then clear the registry entry. -/
def resolveAnomaly (s : SimState) (k : AnomalyKind) : List LogRecord × SimState :=
  let affected_nodes := s.active k
  match k with
  | .network_partition =>
    let q := emitMany s <| affected_nodes.map fun n =>
      { setSt := some "OPERATIONAL", nodeId := n, component := "NETWORK",
        severity := "INFO",
        template := "Network connectivity restored on node {node_id}" }
    (q.1, setActive q.2 .network_partition [])
  | .rack_power_failure =>
    let master : EmitItem :=
      { setSt := none, nodeId := affected_nodes.headI, component := "POWER",
        severity := "INFO",
        template := "Power restored to rack, initiating node startup sequence" }
    let q := emitMany s <| master :: affected_nodes.map fun n =>
      { setSt := some "OPERATIONAL", nodeId := n, component := "POWER",
        severity := "INFO",
        template := "Node {node_id} power on self-test completed successfully" }
    (q.1, setActive q.2 .rack_power_failure [])
  | .filesystem_corruption =>
    let q := emitMany s <| affected_nodes.map fun n =>
      { setSt := some "OPERATIONAL", nodeId := n, component := "FILESYSTEM",
        severity := "INFO",
        template := "Filesystem check completed successfully on node {node_id}, remounting read-write" }
    (q.1, setActive q.2 .filesystem_corruption [])
  | .memory_errors =>
    let q := emitMany s <|
      [{ setSt := some "OPERATIONAL", nodeId := affected_nodes.headI,
         component := "MEMORY", severity := "INFO",
         template := "Memory diagnostics completed on node {node_id}, DIMM replaced, node back online" }]
    (q.1, setActive q.2 .memory_errors [])
  | .overheating =>
    let q := emitMany s <| affected_nodes.map fun n =>
      { setSt := some "OPERATIONAL", nodeId := n, component := "TEMPERATURE",
        severity := "INFO",
        template := "Temperature normalized at {temp}°C on node {node_id}, resuming normal operation" }
    (q.1, setActive q.2 .overheating [])

/-- `_continue_anomaly`, `bgl_log_simulator.py:538-705`.  If no kind has a
non-empty node list it returns the empty sequence with the state untouched
(both early returns at lines 540-541 and 547-548).  Otherwise it either
resolves the chosen kind or emits one ERROR continuation record on a node of
the chosen kind's list (guarded once more by the line-644 emptiness test). -/
def continue_anomaly (s : SimState) (c : ContinueChoice) : List LogRecord × SimState :=
  if allInactive s then ([], s)
  else
    match c with
    | .resolve k => resolveAnomaly s k
    | .ongoing k node_id variant =>
      if (s.active k).isEmpty then ([], s)
      else
        emitMany s
          [{ setSt := none, nodeId := node_id, component := continueComponent k,
             severity := "ERROR",
             template := (continueTemplates k).getD variant "" }]

/-- The ten component names, `bgl_log_simulator.py:38-41`. -/
def components : List String :=
  ["KERNEL", "MEMORY", "NETWORK", "IO", "PROCESSOR",
   "FILESYSTEM", "SCHEDULER", "POWER", "TEMPERATURE", "APPLICATION"]

/-- The four severity levels, `bgl_log_simulator.py:30-35`. -/
def severity_levels : List String := ["INFO", "WARNING", "ERROR", "FATAL"]

/-- The message template catalog, `_init_message_templates`
(`bgl_log_simulator.py:55-188`): five base templates per component followed by
the three merged INFO templates. -/
def message_templates : String → List String
  | "KERNEL" =>
    ["Kernel panic on node {node_id}, process {pid} terminated",
     "Memory allocation failed at address 0x{address}",
     "System call {syscall} failed with error {errno}",
     "Kernel module {module} loaded successfully",
     "Process {pid} started with priority {priority}",
     "Kernel update completed successfully on node {node_id}",
     "Task scheduler optimized on node {node_id}",
     "System performance metrics collected on node {node_id}"]
  | "MEMORY" =>
    ["Memory usage at {percent}% on node {node_id}",
     "Memory leak detected in process {pid}",
     "Out of memory error, killed process {pid}",
     "Memory page fault at address 0x{address}",
     "Memory check completed: {status}",
     "Memory test passed on node {node_id}",
     "Memory allocation pool optimized",
     "Swap usage at {percent}% on node {node_id}"]
  | "NETWORK" =>
    ["Network interface {interface} down on node {node_id}",
     "Packet loss detected between nodes {node_id} and {target_node}",
     "Network throughput dropped to {bandwidth} MB/s",
     "TCP connection timeout on port {port}",
     "Link flapping detected on interface {interface}",
     "Network bandwidth test completed on node {node_id}: {bandwidth} MB/s",
     "Connectivity verified between node {node_id} and {target_node}",
     "Network configuration updated on node {node_id}"]
  | "IO" =>
    ["I/O error on device {device} sector {sector}",
     "Disk {disk} full on node {node_id}",
     "Read timeout on device {device}",
     "Write error on file {filename}",
     "I/O wait time increased to {wait_time} ms",
     "Disk performance test completed on node {node_id}",
     "I/O scheduler switched to {scheduler} on node {node_id}",
     "Device {device} read speed: {speed} MB/s"]
  | "PROCESSOR" =>
    ["CPU temperature at {temp}°C on node {node_id}",
     "CPU utilization at {percent}% on node {node_id}",
     "Processor {core} throttling due to temperature",
     "Instruction cache error on core {core}",
     "Processor completed {cycles} cycles",
     "CPU idle at {percent}% on node {node_id}",
     "Processor frequency scaled to {freq} GHz",
     "Core {core} running optimally on node {node_id}"]
  | "FILESYSTEM" =>
    ["Filesystem {fs} mounted on node {node_id}",
     "File corruption detected at {path}",
     "Inode table overflow on {fs}",
     "Filesystem {fs} remounted read-only due to errors",
     "Journal commit failure on {fs}",
     "Routine filesystem check passed on {fs}",
     "Quota usage at {percent}% on filesystem {fs}",
     "Filesystem {fs} defragmentation completed"]
  | "SCHEDULER" =>
    ["Job {job_id} scheduled on nodes {node_range}",
     "Job {job_id} failed with exit code {exit_code}",
     "Scheduler queue full, rejecting new jobs",
     "Resource allocation failed for job {job_id}",
     "Job {job_id} completed in {duration} seconds",
     "Queue status: {waiting} jobs waiting, {running} jobs running",
     "Scheduler load balanced across {count} nodes",
     "Resource availability updated: {cpu_free} CPUs, {mem_free} GB memory"]
  | "POWER" =>
    ["Power supply {psu} failed on rack {rack_id}",
     "Entering power saving mode on node {node_id}",
     "Power consumption at {watts} watts",
     "Voltage fluctuation detected on rail {rail}",
     "UPS activated due to power instability",
     "Power supply status normal on rack {rack_id}",
     "Energy efficiency optimized on node {node_id}",
     "Power consumption within normal parameters"]
  | "TEMPERATURE" =>
    ["Temperature critical at {temp}°C in rack {rack_id}",
     "Cooling fan {fan_id} failed in node {node_id}",
     "Temperature normalized at {temp}°C",
     "Thermal throttling activated on node {node_id}",
     "HVAC system error code {error_code}",
     "Temperature stable at {temp}°C in rack {rack_id}",
     "Cooling system operating normally on node {node_id}",
     "HVAC maintenance completed successfully"]
  | "APPLICATION" =>
    ["Application {app_name} crashed with signal {signal}",
     "MPI communication timeout in job {job_id}",
     "Checkpoint created for job {job_id} at {timestamp}",
     "Application {app_name} requested {mem_amount} GB memory",
     "Performance degradation detected in job {job_id}",
     "Application {app_name} started successfully on node {node_id}",
     "Job {job_id} resource usage within expected parameters",
     "Application metrics collected for {app_name}"]
  | _ => []

/-- The random draws of one iteration of the `generate_logs` loop
(`bgl_log_simulator.py:711-741`): which of the three branches fires and the
draws of that branch. -/
inductive TickChoice
  | start_anomaly (c : CreateChoice)
  | cont_anomaly (c : ContinueChoice)
  | normal (node_id : Nat) (component severity : String) (template_idx : Nat)
deriving DecidableEq, Repr

/-- Which branch outcomes are possible at state `s`
(`bgl_log_simulator.py:711-731`):
the onset branch needs `random.random() < anomaly_probability` (possible iff
the probability is positive, as `random.random() ∈ [0,1)`) and
`not any(self.active_anomalies.values())`;
the continuation branch needs some active kind (the `0.3` draw can go either
way);
the normal branch needs the onset guard to be refusable (probability `< 1` or
some kind active) — when active, the `0.3` draw can fall either way.  The
normal draws are `randint(0, num_nodes - 1)`, a uniform component, a severity
among the four levels (every level has positive weight under `_get_severity`
for every node state), and a uniform template of that component. -/
def tickValid (cfg : Config) (s : SimState) : TickChoice → Bool
  | .start_anomaly c =>
    decide (0 < cfg.anomaly_probability) && allInactive s && createValid cfg c
  | .cont_anomaly c => !allInactive s && contValid s c
  | .normal n comp sev i =>
    (decide (cfg.anomaly_probability < 1) || !allInactive s) &&
    decide (n < cfg.num_nodes) && decide (comp ∈ components) &&
    decide (sev ∈ severity_levels) && decide (i < (message_templates comp).length)

/-- One iteration of the `generate_logs` loop: the records it appends and the
state it leaves. -/
def applyTick (s : SimState) : TickChoice → List LogRecord × SimState
  | .start_anomaly c =>
    let p := create_anomaly s c
    (p.1, p.2.2)
  | .cont_anomaly c => continue_anomaly s c
  | .normal node_id component severity template_idx =>
    let template := (message_templates component).getD template_idx ""
    let m := fill_template_placeholders template node_id s
    let p := generate_timestamp m.2
    ([{ time := p.1, nodeId := node_id, component := component,
        severity := severity, message := m.1 }], p.2)

/-- `generate_logs(count)`, `bgl_log_simulator.py:707-743`, with the random
draws of the `count` iterations given as a list of tick choices. -/
def generate_logs (s : SimState) : List TickChoice → List LogRecord × SimState
  | [] => ([], s)
  | c :: cs =>
    let p := applyTick s c
    let q := generate_logs p.2 cs
    (p.1 ++ q.1, q.2)

/-- All tick choices of a run are possible outcomes of the random draws at
the states where they are taken. -/
def validRun (cfg : Config) : SimState → List TickChoice → Bool
  | _, [] => true
  | s, c :: cs => tickValid cfg s c && validRun cfg (applyTick s c).2 cs

/-- The state of a freshly constructed simulator,
`bgl_log_simulator.py:47-53`: every node OPERATIONAL, clock at construction
time, empty registry; `t0` is `datetime.datetime.now()` and `ivs` the stream
of future clock increments. -/
def initState (t0 : ℚ) (ivs : Nat → ℚ) : SimState :=
  { nodeStatus := fun _ => "OPERATIONAL", currentTime := t0,
    active := fun _ => [], ivs := ivs, ivIdx := 0 }

/-- States reachable through `generate_logs` from a freshly constructed
simulator, one valid tick at a time. -/
inductive Reachable (cfg : Config) : SimState → Prop
  | init (t0 : ℚ) (ivs : Nat → ℚ) : Reachable cfg (initState t0 ivs)
  | step (s : SimState) (c : TickChoice) : Reachable cfg s →
      tickValid cfg s c = true → Reachable cfg (applyTick s c).2

/-- The clock values before and after an operation bracket the timestamps of
the records it emits, all non-decreasing. -/
def spans (a : ℚ) (rs : List LogRecord) (b : ℚ) : Prop :=
  List.Chain' (· ≤ ·) (a :: (rs.map LogRecord.time ++ [b]))

/-- The kind selected by a `_create_anomaly` draw. -/
def kindOf : CreateChoice → AnomalyKind
  | .network_partition _ _ => .network_partition
  | .rack_power_failure _ => .rack_power_failure
  | .filesystem_corruption _ _ => .filesystem_corruption
  | .memory_errors _ _ => .memory_errors
  | .overheating _ _ _ => .overheating

/-- The affected-node list computed by `_create_anomaly` for a draw. -/
def affectedOf : CreateChoice → List Nat
  | .network_partition st len => List.range' st len
  | .rack_power_failure r => List.range' (r * 32) 32
  | .filesystem_corruption ns _ => ns
  | .memory_errors n _ => [n]
  | .overheating st len _ => List.range' st len

/-- Invariant of every state reachable through `generate_logs`: registered
nodes are in range and carry their kind's degraded status, every degraded node
is registered, at most one kind is active at a time, and the
`memory_errors` entry holds at most one node. -/
structure Inv (cfg : Config) (s : SimState) : Prop where
  mem_lt : ∀ k, ∀ n ∈ s.active k, n < cfg.num_nodes
  mem_status : ∀ k, ∀ n ∈ s.active k, s.nodeStatus n = degradedStatus k
  status_mem : ∀ n, s.nodeStatus n ≠ "OPERATIONAL" → ∃ k, n ∈ s.active k
  single : ∀ k k', s.active k ≠ [] → s.active k' ≠ [] → k = k'
  memory_one : (s.active AnomalyKind.memory_errors).length ≤ 1

/-- A 150-node configuration used to exhibit concrete runs. -/
def cfg150 : Config :=
  { num_nodes := 150, num_components := 10, error_rate := mkRat 1 20,
    anomaly_probability := mkRat 1 100 }


/-- Concrete witness data: a 128-node configuration that always fires the
onset draw when inactive. -/
def cfgP1 : Config :=
  { num_nodes := 128, num_components := 10, error_rate := mkRat 1 20,
    anomaly_probability := 1 }

/-- Concrete witness data: a 128-node configuration whose anomaly draw never
fires. -/
def cfgP0 : Config :=
  { num_nodes := 128, num_components := 10, error_rate := mkRat 1 20,
    anomaly_probability := 0 }

/-- A fresh simulator state with clock 0 and unit clock increments. -/
def sInit : SimState := initState 0 fun _ => 1

/-- The state reached from `sInit` by one memory-errors onset tick on node 5
with a cascade of 3 records. -/
def sMem : SimState :=
  (applyTick sInit (.start_anomaly (.memory_errors 5 3))).2


/-! ## Effect lemmas for the primitives -/

theorem generate_timestamp_ivs (s : SimState) : (generate_timestamp s).2.ivs = s.ivs := rfl

theorem generate_timestamp_nodeStatus (s : SimState) :
    (generate_timestamp s).2.nodeStatus = s.nodeStatus := rfl

theorem generate_timestamp_active (s : SimState) :
    (generate_timestamp s).2.active = s.active := rfl

theorem generate_timestamp_fst (s : SimState) :
    (generate_timestamp s).1 = s.currentTime + s.ivs s.ivIdx := rfl

theorem generate_timestamp_currentTime (s : SimState) :
    (generate_timestamp s).2.currentTime = s.currentTime + s.ivs s.ivIdx := rfl

theorem fill_ivs (t : String) (n : Nat) (s : SimState) :
    (fill_template_placeholders t n s).2.ivs = s.ivs := by
  unfold fill_template_placeholders
  dsimp only
  split <;> rfl

theorem fill_nodeStatus (t : String) (n : Nat) (s : SimState) :
    (fill_template_placeholders t n s).2.nodeStatus = s.nodeStatus := by
  unfold fill_template_placeholders
  dsimp only
  split <;> rfl

theorem fill_active (t : String) (n : Nat) (s : SimState) :
    (fill_template_placeholders t n s).2.active = s.active := by
  unfold fill_template_placeholders
  dsimp only
  split <;> rfl

theorem fill_currentTime_le (t : String) (n : Nat) (s : SimState) (h : nonnegIvs s) :
    s.currentTime ≤ (fill_template_placeholders t n s).2.currentTime := by
  unfold fill_template_placeholders
  dsimp only
  split
  · exact le_add_of_nonneg_right (h s.ivIdx)
  · exact le_refl _

theorem setNodeStatus_active (s : SimState) (n : Nat) (st : String) :
    (setNodeStatus s n st).active = s.active := rfl

theorem setNodeStatus_currentTime (s : SimState) (n : Nat) (st : String) :
    (setNodeStatus s n st).currentTime = s.currentTime := rfl

theorem setNodeStatus_ivs (s : SimState) (n : Nat) (st : String) :
    (setNodeStatus s n st).ivs = s.ivs := rfl

theorem setActive_nodeStatus (s : SimState) (k : AnomalyKind) (ns : List Nat) :
    (setActive s k ns).nodeStatus = s.nodeStatus := rfl

theorem setActive_currentTime (s : SimState) (k : AnomalyKind) (ns : List Nat) :
    (setActive s k ns).currentTime = s.currentTime := rfl

theorem setActive_ivs (s : SimState) (k : AnomalyKind) (ns : List Nat) :
    (setActive s k ns).ivs = s.ivs := rfl

theorem setActive_active (s : SimState) (k : AnomalyKind) (ns : List Nat) (k' : AnomalyKind) :
    (setActive s k ns).active k' = if k' = k then ns else s.active k' := rfl

theorem applySet_active (s : SimState) (o : Option String) (n : Nat) :
    (applySet s o n).active = s.active := by
  cases o <;> rfl

theorem applySet_currentTime (s : SimState) (o : Option String) (n : Nat) :
    (applySet s o n).currentTime = s.currentTime := by
  cases o <;> rfl

theorem applySet_ivs (s : SimState) (o : Option String) (n : Nat) :
    (applySet s o n).ivs = s.ivs := by
  cases o <;> rfl

theorem nonnegIvs_congr {s s' : SimState} (h : s'.ivs = s.ivs) (hs : nonnegIvs s) :
    nonnegIvs s' := fun n => h ▸ hs n

/-! ## Effect lemmas for `emitOne` and `emitMany` -/

theorem emitOne_fst (s : SimState) (it : EmitItem) :
    ((emitOne s it).1.nodeId, (emitOne s it).1.component, (emitOne s it).1.severity) =
      (it.nodeId, it.component, it.severity) := rfl

theorem emitOne_snd_ivs (s : SimState) (it : EmitItem) : (emitOne s it).2.ivs = s.ivs := by
  show (generate_timestamp _).2.ivs = s.ivs
  rw [generate_timestamp_ivs, fill_ivs, applySet_ivs]

theorem emitOne_snd_active (s : SimState) (it : EmitItem) :
    (emitOne s it).2.active = s.active := by
  show (generate_timestamp _).2.active = s.active
  rw [generate_timestamp_active, fill_active, applySet_active]

theorem emitOne_snd_nodeStatus (s : SimState) (it : EmitItem) :
    (emitOne s it).2.nodeStatus = (applySet s it.setSt it.nodeId).nodeStatus := by
  show (generate_timestamp _).2.nodeStatus = _
  rw [generate_timestamp_nodeStatus, fill_nodeStatus]

theorem emitMany_snd_ivs : ∀ (l : List EmitItem) (s : SimState),
    (emitMany s l).2.ivs = s.ivs
  | [], _ => rfl
  | it :: rest, s => by
    show (emitMany (emitOne s it).2 rest).2.ivs = s.ivs
    rw [emitMany_snd_ivs rest, emitOne_snd_ivs]

theorem emitMany_snd_active : ∀ (l : List EmitItem) (s : SimState),
    (emitMany s l).2.active = s.active
  | [], _ => rfl
  | it :: rest, s => by
    show (emitMany (emitOne s it).2 rest).2.active = s.active
    rw [emitMany_snd_active rest, emitOne_snd_active]

theorem emitMany_fst_meta : ∀ (l : List EmitItem) (s : SimState),
    ((emitMany s l).1).map (fun r => (r.nodeId, r.component, r.severity)) =
      l.map fun it => (it.nodeId, it.component, it.severity)
  | [], _ => rfl
  | it :: rest, s => by
    show ((emitOne s it).1 :: (emitMany (emitOne s it).2 rest).1).map _ = _
    simp only [List.map_cons, emitMany_fst_meta rest, emitOne_fst]

theorem emitMany_length (l : List EmitItem) (s : SimState) :
    (emitMany s l).1.length = l.length := by
  have h := congrArg List.length (emitMany_fst_meta l s)
  simpa using h

/-- After a sequence of emissions in which every performed status assignment
writes the same value `v`, a node's status is `v` if some item set it, and is
otherwise untouched. -/
theorem emitMany_snd_nodeStatus (v : String) :
    ∀ (l : List EmitItem) (s : SimState),
    (∀ it ∈ l, it.setSt = none ∨ it.setSt = some v) → ∀ n,
    (emitMany s l).2.nodeStatus n =
      if l.any (fun it => it.setSt.isSome && it.nodeId == n) then v else s.nodeStatus n
  | [], _, _, _ => by simp [emitMany]
  | it :: rest, s, h, n => by
    have hrest : ∀ it' ∈ rest, it'.setSt = none ∨ it'.setSt = some v :=
      fun it' hm => h it' (List.mem_cons_of_mem _ hm)
    have hstep : (emitMany s (it :: rest)).2.nodeStatus n =
        (emitMany (emitOne s it).2 rest).2.nodeStatus n := rfl
    rw [hstep, emitMany_snd_nodeStatus v rest _ hrest n]
    rcases h it (List.mem_cons_self it rest) with hnone | hsome
    · simp only [List.any_cons, hnone, Option.isSome_none, Bool.false_and, Bool.false_or]
      rw [emitOne_snd_nodeStatus]
      unfold applySet
      rw [hnone]
    · simp only [List.any_cons, hsome, Option.isSome_some, Bool.true_and]
      rw [emitOne_snd_nodeStatus]
      unfold applySet
      rw [hsome]
      by_cases hb : it.nodeId = n
      · simp [setNodeStatus, hb]
      · simp [setNodeStatus, hb, Ne.symm hb]

/-- Emissions that perform no status assignment leave the status table
untouched. -/
theorem emitMany_snd_nodeStatus_none (l : List EmitItem) (s : SimState)
    (h : ∀ it ∈ l, it.setSt = none) :
    (emitMany s l).2.nodeStatus = s.nodeStatus := by
  funext n
  rw [emitMany_snd_nodeStatus "" l s (fun it hm => Or.inl (h it hm)) n]
  have : l.any (fun it => it.setSt.isSome && it.nodeId == n) = false := by
    rw [List.any_eq_false]
    intro it hm
    rw [h it hm]
    simp
  rw [this]
  simp

/-! ## Clock monotonicity: the `spans` predicate -/

theorem spans_nil {a b : ℚ} (h : a ≤ b) : spans a [] b := by
  simpa [spans] using h

theorem spans_trans {a b c : ℚ} {rs₁ rs₂ : List LogRecord}
    (h₁ : spans a rs₁ b) (h₂ : spans b rs₂ c) : spans a (rs₁ ++ rs₂) c := by
  unfold spans at *
  have e : a :: ((rs₁ ++ rs₂).map LogRecord.time ++ [c]) =
      (a :: rs₁.map LogRecord.time) ++ (rs₂.map LogRecord.time ++ [c]) := by
    simp
  rw [e]
  have e₁ : a :: (rs₁.map LogRecord.time ++ [b]) =
      (a :: rs₁.map LogRecord.time) ++ [b] := by simp
  rw [e₁, List.chain'_append] at h₁
  rw [List.chain'_cons'] at h₂
  rw [List.chain'_append]
  refine ⟨h₁.1, h₂.2, ?_⟩
  intro x hx y hy
  have hxb : x ≤ b := h₁.2.2 x hx b (by simp)
  have hby : b ≤ y := h₂.1 y hy
  exact le_trans hxb hby

theorem spans_sorted {a b : ℚ} {rs : List LogRecord} (h : spans a rs b) :
    List.Sorted (· ≤ ·) (rs.map LogRecord.time) := by
  unfold spans at h
  have h1 := h.tail
  simp only [List.tail_cons] at h1
  rw [List.chain'_append] at h1
  exact List.chain'_iff_pairwise.mp h1.1

theorem emitOne_spans (s : SimState) (it : EmitItem) (h : nonnegIvs s) :
    spans s.currentTime [(emitOne s it).1] (emitOne s it).2.currentTime := by
  have h0 : (emitOne s it).1.time = (emitOne s it).2.currentTime := rfl
  have h1 : s.currentTime ≤ (emitOne s it).1.time := by
    show s.currentTime ≤ (generate_timestamp _).1
    rw [generate_timestamp_fst]
    have hs0 : s.currentTime =
        (applySet s it.setSt it.nodeId).currentTime := (applySet_currentTime s _ _).symm
    have hfill : (applySet s it.setSt it.nodeId).currentTime ≤
        (fill_template_placeholders it.template it.nodeId
          (applySet s it.setSt it.nodeId)).2.currentTime :=
      fill_currentTime_le _ _ _ (nonnegIvs_congr (applySet_ivs s _ _) h)
    have hiv : (0:ℚ) ≤ (fill_template_placeholders it.template it.nodeId
        (applySet s it.setSt it.nodeId)).2.ivs
          (fill_template_placeholders it.template it.nodeId
            (applySet s it.setSt it.nodeId)).2.ivIdx := by
      have := nonnegIvs_congr (by rw [fill_ivs, applySet_ivs] : (fill_template_placeholders
        it.template it.nodeId (applySet s it.setSt it.nodeId)).2.ivs = s.ivs) h
      exact this _
    calc s.currentTime = (applySet s it.setSt it.nodeId).currentTime := hs0
      _ ≤ _ := hfill
      _ ≤ _ := le_add_of_nonneg_right hiv
  unfold spans
  simp only [List.map_cons, List.map_nil, List.cons_append, List.nil_append]
  rw [List.chain'_cons, List.chain'_pair]
  exact ⟨h1, le_of_eq h0⟩

theorem emitMany_spans : ∀ (l : List EmitItem) (s : SimState), nonnegIvs s →
    spans s.currentTime (emitMany s l).1 (emitMany s l).2.currentTime
  | [], s, _ => spans_nil (le_refl _)
  | it :: rest, s, h => by
    have h1 := emitOne_spans s it h
    have h2 := emitMany_spans rest (emitOne s it).2
      (nonnegIvs_congr (emitOne_snd_ivs s it) h)
    have e : (emitMany s (it :: rest)).1 =
        (emitOne s it).1 :: (emitMany (emitOne s it).2 rest).1 := rfl
    have e2 : (emitMany s (it :: rest)).2 = (emitMany (emitOne s it).2 rest).2 := rfl
    rw [e, e2]
    exact spans_trans h1 h2

/-! ## Record metadata of emissions -/

theorem emitMany_nodeIds : ∀ (l : List EmitItem) (s : SimState),
    ((emitMany s l).1).map LogRecord.nodeId = l.map EmitItem.nodeId
  | [], _ => rfl
  | it :: rest, s => by
    show ((emitOne s it).1 :: (emitMany (emitOne s it).2 rest).1).map _ = _
    simp only [List.map_cons, emitMany_nodeIds rest]
    rfl

theorem emitMany_severities : ∀ (l : List EmitItem) (s : SimState),
    ((emitMany s l).1).map LogRecord.severity = l.map EmitItem.severity
  | [], _ => rfl
  | it :: rest, s => by
    show ((emitOne s it).1 :: (emitMany (emitOne s it).2 rest).1).map _ = _
    simp only [List.map_cons, emitMany_severities rest]
    rfl

theorem emitMany_components : ∀ (l : List EmitItem) (s : SimState),
    ((emitMany s l).1).map LogRecord.component = l.map EmitItem.component
  | [], _ => rfl
  | it :: rest, s => by
    show ((emitOne s it).1 :: (emitMany (emitOne s it).2 rest).1).map _ = _
    simp only [List.map_cons, emitMany_components rest]
    rfl

/-- Propositional form of `emitMany_snd_nodeStatus`. -/
theorem emitMany_snd_nodeStatus_prop (v : String) (l : List EmitItem) (s : SimState)
    (h : ∀ it ∈ l, it.setSt = none ∨ it.setSt = some v) (n : Nat) :
    (emitMany s l).2.nodeStatus n =
      if ∃ it ∈ l, it.setSt.isSome = true ∧ it.nodeId = n then v else s.nodeStatus n := by
  rw [emitMany_snd_nodeStatus v l s h n]
  by_cases hc : ∃ it ∈ l, it.setSt.isSome = true ∧ it.nodeId = n
  · rw [if_pos hc, if_pos]
    rcases hc with ⟨it, hm, h1, h2⟩
    rw [List.any_eq_true]
    exact ⟨it, hm, by simp [h1, h2]⟩
  · rw [if_neg hc, if_neg]
    intro hany
    rcases List.any_eq_true.mp hany with ⟨it, hm, hp⟩
    simp only [Bool.and_eq_true, beq_iff_eq] at hp
    exact hc ⟨it, hm, hp.1, hp.2⟩

/-! ## Characterization of `_create_anomaly` -/

theorem create_anomaly_affected (s : SimState) (c : CreateChoice) :
    (create_anomaly s c).2.1 = affectedOf c := by
  cases c <;> rfl

theorem create_anomaly_active (s : SimState) (c : CreateChoice) (k' : AnomalyKind) :
    (create_anomaly s c).2.2.active k' =
      if k' = kindOf c then s.active (kindOf c) ++ affectedOf c else s.active k' := by
  cases c <;>
    simp only [create_anomaly, kindOf, affectedOf, setActive_active, emitMany_snd_active,
      setNodeStatus_active]

theorem create_anomaly_ivs (s : SimState) (c : CreateChoice) :
    (create_anomaly s c).2.2.ivs = s.ivs := by
  cases c <;> simp only [create_anomaly, setActive_ivs, emitMany_snd_ivs, setNodeStatus_ivs]

theorem create_anomaly_nodeStatus (cfg : Config) (s : SimState) (c : CreateChoice)
    (hv : createValid cfg c = true) (n : Nat) :
    (create_anomaly s c).2.2.nodeStatus n =
      if n ∈ affectedOf c then degradedStatus (kindOf c) else s.nodeStatus n := by
  cases c with
  | network_partition st len =>
    show (setActive _ _ _).nodeStatus n = _
    rw [setActive_nodeStatus,
      emitMany_snd_nodeStatus_prop "NETWORK_DEGRADED" _ s (by
        intro it hm
        rcases List.mem_map.mp hm with ⟨a, _, rfl⟩
        exact Or.inr rfl)]
    simp [affectedOf, kindOf, degradedStatus]
  | rack_power_failure r =>
    show (setActive _ _ _).nodeStatus n = _
    rw [setActive_nodeStatus,
      emitMany_snd_nodeStatus_prop "POWERED_OFF" _ s (by
        intro it hm
        rcases List.mem_cons.mp hm with rfl | hm'
        · exact Or.inl rfl
        · rcases List.mem_map.mp hm' with ⟨a, _, rfl⟩
          exact Or.inr rfl)]
    simp [affectedOf, kindOf, degradedStatus]
  | filesystem_corruption ns fs =>
    show (setActive _ _ _).nodeStatus n = _
    rw [setActive_nodeStatus,
      emitMany_snd_nodeStatus_prop "FILESYSTEM_ERROR" _ s (by
        intro it hm
        rcases List.mem_map.mp hm with ⟨a, _, rfl⟩
        exact Or.inr rfl)]
    simp [affectedOf, kindOf, degradedStatus]
  | memory_errors node c =>
    show (setActive _ _ _).nodeStatus n = _
    rw [setActive_nodeStatus,
      emitMany_snd_nodeStatus_none _ _ (by
        intro it hm
        rcases List.mem_map.mp hm with ⟨a, _, rfl⟩
        rfl)]
    by_cases hb : n = node
    · subst hb
      simp [affectedOf, kindOf, degradedStatus, setNodeStatus]
    · simp [affectedOf, kindOf, degradedStatus, setNodeStatus, hb]
  | overheating st len temps =>
    have hlen : temps.length = len := by
      simp only [createValid, Bool.and_eq_true, decide_eq_true_eq] at hv
      exact hv.1.2
    show (setActive _ _ _).nodeStatus n = _
    rw [setActive_nodeStatus,
      emitMany_snd_nodeStatus_prop "OVERHEATING" _ s (by
        intro it hm
        rcases List.mem_map.mp hm with ⟨a, _, rfl⟩
        exact Or.inr rfl)]
    have hz : ((List.range' st len).zip temps).map Prod.fst = List.range' st len :=
      List.map_fst_zip _ _ (by rw [hlen, List.length_range'])
    have hiff : (∃ it ∈ ((List.range' st len).zip temps).map fun p =>
        ({ setSt := some "OVERHEATING", nodeId := p.1, component := "TEMPERATURE",
           severity := overheatSeverity p.2,
           template := strReplace (overheatTemplate p.2) "{temp}" (toString p.2) } : EmitItem),
        it.setSt.isSome = true ∧ it.nodeId = n) ↔ n ∈ List.range' st len := by
      constructor
      · rintro ⟨it, hit, -, hid⟩
        rcases List.mem_map.mp hit with ⟨p, hp, rfl⟩
        rw [← hz]
        exact hid ▸ List.mem_map_of_mem _ hp
      · intro hmem
        have h1 : n ∈ ((List.range' st len).zip temps).map Prod.fst := by
          rw [hz]
          exact hmem
        rcases List.mem_map.mp h1 with ⟨p, hp, hpn⟩
        exact ⟨_, List.mem_map_of_mem _ hp, rfl, hpn⟩
    simp only [affectedOf, kindOf, degradedStatus]
    rw [if_congr hiff rfl rfl]

theorem affected_lt (cfg : Config) (c : CreateChoice) (hv : createValid cfg c = true) :
    ∀ n ∈ affectedOf c, n < cfg.num_nodes := by
  cases c with
  | network_partition st len =>
    simp only [createValid, Bool.and_eq_true, decide_eq_true_eq] at hv
    intro n hn
    rcases List.mem_range'_1.mp hn with ⟨-, h2⟩
    omega
  | rack_power_failure r =>
    simp only [createValid, Bool.and_eq_true, decide_eq_true_eq] at hv
    intro n hn
    rcases List.mem_range'_1.mp hn with ⟨-, h2⟩
    have h3 : (r + 1) * 32 ≤ (cfg.num_nodes / 32) * 32 := Nat.mul_le_mul_right _ hv.2
    have h4 : (cfg.num_nodes / 32) * 32 ≤ cfg.num_nodes := Nat.div_mul_le_self _ _
    omega
  | filesystem_corruption ns fs =>
    simp only [createValid, Bool.and_eq_true, decide_eq_true_eq, List.all_eq_true] at hv
    intro n hn
    exact hv.1.1.2 n hn
  | memory_errors node c =>
    simp only [createValid, Bool.and_eq_true, decide_eq_true_eq] at hv
    intro n hn
    rcases List.mem_singleton.mp hn with rfl
    exact hv.1.1
  | overheating st len temps =>
    simp only [createValid, Bool.and_eq_true, decide_eq_true_eq] at hv
    intro n hn
    rcases List.mem_range'_1.mp hn with ⟨-, h2⟩
    omega

/-! ## The reachable-state invariant -/

theorem degradedStatus_ne (k : AnomalyKind) : degradedStatus k ≠ "OPERATIONAL" := by
  cases k <;> simp [degradedStatus]

theorem allInactive_iff (s : SimState) :
    allInactive s = true ↔ ∀ k, s.active k = [] := by
  simp only [allInactive, AnomalyKind.all, List.all_cons, List.all_nil,
    Bool.and_eq_true, Bool.and_true, List.isEmpty_iff]
  constructor
  · rintro ⟨h1, h2, h3, h4, h5⟩ k
    cases k <;> assumption
  · intro h
    exact ⟨h _, h _, h _, h _, h _⟩

theorem inv_of_clean (cfg : Config) (s : SimState)
    (ha : ∀ k, s.active k = []) (hs : ∀ n, s.nodeStatus n = "OPERATIONAL") :
    Inv cfg s := by
  refine ⟨?_, ?_, ?_, ?_, ?_⟩
  · intro k n hn
    rw [ha k] at hn
    cases hn
  · intro k n hn
    rw [ha k] at hn
    cases hn
  · intro n hn
    exact absurd (hs n) hn
  · intro k k' hk _
    exact absurd (ha k) hk
  · rw [ha]
    simp

theorem inv_init (cfg : Config) (t0 : ℚ) (ivs : Nat → ℚ) :
    Inv cfg (initState t0 ivs) :=
  inv_of_clean cfg _ (fun _ => rfl) (fun _ => rfl)

theorem inv_congr {cfg : Config} {s s' : SimState}
    (hst : s'.nodeStatus = s.nodeStatus) (hac : s'.active = s.active)
    (h : Inv cfg s) : Inv cfg s' := by
  refine ⟨?_, ?_, ?_, ?_, ?_⟩
  · rw [hac]
    exact h.mem_lt
  · rw [hac, hst]
    exact h.mem_status
  · rw [hst, hac]
    exact h.status_mem
  · rw [hac]
    exact h.single
  · rw [hac]
    exact h.memory_one

theorem inv_create (cfg : Config) (s : SimState) (c : CreateChoice)
    (hInv : Inv cfg s) (hAll : allInactive s = true) (hv : createValid cfg c = true) :
    Inv cfg (create_anomaly s c).2.2 := by
  have hall := (allInactive_iff s).mp hAll
  have hstat : ∀ n, s.nodeStatus n = "OPERATIONAL" := by
    intro n
    by_contra hne
    rcases hInv.status_mem n hne with ⟨k, hk⟩
    rw [hall k] at hk
    cases hk
  have hactive : ∀ k', (create_anomaly s c).2.2.active k' =
      if k' = kindOf c then affectedOf c else [] := by
    intro k'
    rw [create_anomaly_active, hall, hall]
    simp
  have hst : ∀ n, (create_anomaly s c).2.2.nodeStatus n =
      if n ∈ affectedOf c then degradedStatus (kindOf c) else "OPERATIONAL" := by
    intro n
    rw [create_anomaly_nodeStatus cfg s c hv n, hstat]
  refine ⟨?_, ?_, ?_, ?_, ?_⟩
  · intro k n hn
    rw [hactive] at hn
    by_cases hk : k = kindOf c
    · rw [if_pos hk] at hn
      exact affected_lt cfg c hv n hn
    · rw [if_neg hk] at hn
      cases hn
  · intro k n hn
    rw [hactive] at hn
    by_cases hk : k = kindOf c
    · rw [if_pos hk] at hn
      rw [hst, if_pos hn, hk]
    · rw [if_neg hk] at hn
      cases hn
  · intro n hn
    rw [hst] at hn
    by_cases hm : n ∈ affectedOf c
    · exact ⟨kindOf c, by rw [hactive, if_pos rfl]; exact hm⟩
    · rw [if_neg hm] at hn
      exact absurd rfl hn
  · intro k k' hk hk'
    rw [hactive] at hk hk'
    by_cases h1 : k = kindOf c
    · by_cases h2 : k' = kindOf c
      · rw [h1, h2]
      · rw [if_neg h2] at hk'
        exact absurd rfl hk'
    · rw [if_neg h1] at hk
      exact absurd rfl hk
  · rw [hactive]
    cases c <;> simp [kindOf, affectedOf]

/-! ## Characterization of the resolution branch of `_continue_anomaly` -/

theorem exists_setter_map_iff (l : List Nat) (mk : Nat → EmitItem)
    (hid : ∀ a, (mk a).nodeId = a) (hset : ∀ a, ((mk a).setSt).isSome = true) (n : Nat) :
    (∃ it ∈ l.map mk, it.setSt.isSome = true ∧ it.nodeId = n) ↔ n ∈ l := by
  constructor
  · rintro ⟨it, hit, -, hn⟩
    rcases List.mem_map.mp hit with ⟨a, ha, rfl⟩
    rw [hid] at hn
    exact hn ▸ ha
  · intro hn
    exact ⟨mk n, List.mem_map_of_mem _ hn, hset n, hid n⟩

/-- Status table after an emission sequence made of a prefix of pure records
(no status assignment) followed by one status-setting record per node of
`l`, all assigning `v` — the shape of every onset and resolution loop. -/
theorem emitMany_snd_nodeStatus_setters (v : String) (pre : List EmitItem)
    (hpre : ∀ it ∈ pre, it.setSt = none) (l : List Nat) (mk : Nat → EmitItem)
    (hid : ∀ a, (mk a).nodeId = a) (hset : ∀ a, (mk a).setSt = some v)
    (s : SimState) (n : Nat) :
    (emitMany s (pre ++ l.map mk)).2.nodeStatus n =
      if n ∈ l then v else s.nodeStatus n := by
  rw [emitMany_snd_nodeStatus_prop v _ s (by
    intro it hm
    rcases List.mem_append.mp hm with hm' | hm'
    · exact Or.inl (hpre it hm')
    · rcases List.mem_map.mp hm' with ⟨a, -, rfl⟩
      exact Or.inr (hset a))]
  have hiff : (∃ it ∈ pre ++ l.map mk, it.setSt.isSome = true ∧ it.nodeId = n) ↔
      n ∈ l := by
    constructor
    · rintro ⟨it, hit, h1, h2⟩
      rcases List.mem_append.mp hit with hm' | hm'
      · rw [hpre it hm'] at h1
        cases h1
      · exact (exists_setter_map_iff l mk hid
          (fun a => by rw [hset a]; rfl) n).mp ⟨it, hm', h1, h2⟩
    · intro hn
      rcases (exists_setter_map_iff l mk hid
          (fun a => by rw [hset a]; rfl) n).mpr hn with ⟨it, hit, h1, h2⟩
      exact ⟨it, List.mem_append.mpr (Or.inr hit), h1, h2⟩
  rw [if_congr hiff rfl rfl]

theorem resolveAnomaly_active (s : SimState) (k k' : AnomalyKind) :
    (resolveAnomaly s k).2.active k' = if k' = k then [] else s.active k' := by
  cases k <;>
    simp only [resolveAnomaly, setActive_active, emitMany_snd_active]

theorem resolveAnomaly_ivs (s : SimState) (k : AnomalyKind) :
    (resolveAnomaly s k).2.ivs = s.ivs := by
  cases k <;> simp only [resolveAnomaly, setActive_ivs, emitMany_snd_ivs]

theorem resolveAnomaly_nodeStatus (s : SimState) (k : AnomalyKind)
    (hk : s.active k ≠ []) (hmem1 : (s.active AnomalyKind.memory_errors).length ≤ 1)
    (n : Nat) :
    (resolveAnomaly s k).2.nodeStatus n =
      if n ∈ s.active k then "OPERATIONAL" else s.nodeStatus n := by
  cases k with
  | network_partition =>
    show (setActive _ _ _).nodeStatus n = _
    rw [setActive_nodeStatus]
    exact emitMany_snd_nodeStatus_setters "OPERATIONAL" [] (by simp) _ _
      (fun _ => rfl) (fun _ => rfl) s n
  | rack_power_failure =>
    show (setActive _ _ _).nodeStatus n = _
    rw [setActive_nodeStatus]
    exact emitMany_snd_nodeStatus_setters "OPERATIONAL" [_] (by
        intro it hm
        rcases List.mem_singleton.mp hm with rfl
        rfl) _ _
      (fun _ => rfl) (fun _ => rfl) s n
  | filesystem_corruption =>
    show (setActive _ _ _).nodeStatus n = _
    rw [setActive_nodeStatus]
    exact emitMany_snd_nodeStatus_setters "OPERATIONAL" [] (by simp) _ _
      (fun _ => rfl) (fun _ => rfl) s n
  | memory_errors =>
    obtain ⟨a, ha⟩ : ∃ a, s.active AnomalyKind.memory_errors = [a] :=
      List.length_eq_one.mp (le_antisymm hmem1 (List.length_pos.mpr hk))
    show (setActive _ _ _).nodeStatus n = _
    rw [setActive_nodeStatus]
    have h1 := emitMany_snd_nodeStatus_setters "OPERATIONAL" [] (by simp)
      [(s.active AnomalyKind.memory_errors).headI]
      (fun a' =>
                 { setSt := some "OPERATIONAL", nodeId := a', component := "MEMORY",
                   severity := "INFO",
                   template := "Memory diagnostics completed on node {node_id}, DIMM replaced, node back online" })
      (fun _ => rfl) (fun _ => rfl) s n
    rw [ha] at h1 ⊢
    exact h1
  | overheating =>
    show (setActive _ _ _).nodeStatus n = _
    rw [setActive_nodeStatus]
    exact emitMany_snd_nodeStatus_setters "OPERATIONAL" [] (by simp) _ _
      (fun _ => rfl) (fun _ => rfl) s n

theorem resolveAnomaly_severity (s : SimState) (k : AnomalyKind) (r : LogRecord)
    (hr : r ∈ (resolveAnomaly s k).1) : r.severity = "INFO" := by
  have hs : r.severity ∈ ((resolveAnomaly s k).1).map LogRecord.severity :=
    List.mem_map_of_mem _ hr
  cases k with
  | network_partition =>
    simp only [resolveAnomaly] at hs
    rw [emitMany_severities, List.map_map] at hs
    rcases List.mem_map.mp hs with ⟨a, -, ha⟩
    exact ha.symm
  | rack_power_failure =>
    simp only [resolveAnomaly] at hs
    rw [emitMany_severities, List.map_cons, List.map_map] at hs
    rcases List.mem_cons.mp hs with h | h
    · exact h
    · rcases List.mem_map.mp h with ⟨a, -, ha⟩
      exact ha.symm
  | filesystem_corruption =>
    simp only [resolveAnomaly] at hs
    rw [emitMany_severities, List.map_map] at hs
    rcases List.mem_map.mp hs with ⟨a, -, ha⟩
    exact ha.symm
  | memory_errors =>
    simp only [resolveAnomaly] at hs
    rw [emitMany_severities, List.map_cons, List.map_nil] at hs
    exact List.mem_singleton.mp hs
  | overheating =>
    simp only [resolveAnomaly] at hs
    rw [emitMany_severities, List.map_map] at hs
    rcases List.mem_map.mp hs with ⟨a, -, ha⟩
    exact ha.symm

theorem resolveAnomaly_length (s : SimState) (k : AnomalyKind)
    (hk : s.active k ≠ []) (hmem1 : (s.active AnomalyKind.memory_errors).length ≤ 1) :
    (resolveAnomaly s k).1.length =
      (s.active k).length + (if k = AnomalyKind.rack_power_failure then 1 else 0) := by
  cases k with
  | memory_errors =>
    obtain ⟨a, ha⟩ : ∃ a, s.active AnomalyKind.memory_errors = [a] :=
      List.length_eq_one.mp (le_antisymm hmem1 (List.length_pos.mpr hk))
    simp [resolveAnomaly, emitMany_length, ha]
  | rack_power_failure =>
    simp [resolveAnomaly, emitMany_length, Nat.add_comm]
  | network_partition => simp [resolveAnomaly, emitMany_length]
  | filesystem_corruption => simp [resolveAnomaly, emitMany_length]
  | overheating => simp [resolveAnomaly, emitMany_length]

/-! ## `_continue_anomaly` wrappers -/

theorem allInactive_eq_false_of {s : SimState} {k : AnomalyKind}
    (hk : s.active k ≠ []) : allInactive s = false := by
  cases h : allInactive s
  · rfl
  · exact absurd ((allInactive_iff s).mp h k) hk

theorem continue_anomaly_resolve (s : SimState) (k : AnomalyKind)
    (hk : s.active k ≠ []) :
    continue_anomaly s (.resolve k) = resolveAnomaly s k := by
  unfold continue_anomaly
  rw [allInactive_eq_false_of hk]
  simp

theorem continue_anomaly_ongoing_state (s : SimState) (k : AnomalyKind)
    (n v : Nat) :
    (continue_anomaly s (.ongoing k n v)).2.nodeStatus = s.nodeStatus ∧
    (continue_anomaly s (.ongoing k n v)).2.active = s.active := by
  unfold continue_anomaly
  split
  · exact ⟨rfl, rfl⟩
  · dsimp only
    split
    · exact ⟨rfl, rfl⟩
    · exact ⟨emitMany_snd_nodeStatus_none _ _ (by
        intro it hm
        rcases List.mem_singleton.mp hm with rfl
        rfl), emitMany_snd_active _ _⟩

theorem continue_anomaly_ivs (s : SimState) (c : ContinueChoice) :
    (continue_anomaly s c).2.ivs = s.ivs := by
  unfold continue_anomaly
  split
  · rfl
  · cases c with
    | resolve k => exact resolveAnomaly_ivs s k
    | ongoing k n v =>
      dsimp only
      split
      · rfl
      · exact emitMany_snd_ivs _ _

/-! ## Invariant preservation -/

theorem inv_resolve (cfg : Config) (s : SimState) (k : AnomalyKind)
    (hInv : Inv cfg s) (hk : s.active k ≠ []) :
    Inv cfg (resolveAnomaly s k).2 := by
  apply inv_of_clean
  · intro k'
    rw [resolveAnomaly_active]
    by_cases h : k' = k
    · rw [if_pos h]
    · rw [if_neg h]
      by_contra hne
      exact h (hInv.single k' k hne hk)
  · intro n
    rw [resolveAnomaly_nodeStatus s k hk hInv.memory_one n]
    by_cases hm : n ∈ s.active k
    · rw [if_pos hm]
    · rw [if_neg hm]
      by_contra hne
      rcases hInv.status_mem n hne with ⟨k₀, hk₀⟩
      have : k₀ = k := hInv.single k₀ k (List.ne_nil_of_mem hk₀) hk
      exact hm (this ▸ hk₀)

theorem applyTick_normal_state (s : SimState) (n : Nat) (comp sev : String) (i : Nat) :
    (applyTick s (.normal n comp sev i)).2.nodeStatus = s.nodeStatus ∧
    (applyTick s (.normal n comp sev i)).2.active = s.active := by
  constructor
  · show (generate_timestamp _).2.nodeStatus = _
    rw [generate_timestamp_nodeStatus, fill_nodeStatus]
  · show (generate_timestamp _).2.active = _
    rw [generate_timestamp_active, fill_active]

theorem inv_applyTick (cfg : Config) (s : SimState) (c : TickChoice)
    (hInv : Inv cfg s) (hv : tickValid cfg s c = true) :
    Inv cfg (applyTick s c).2 := by
  cases c with
  | start_anomaly c =>
    simp only [tickValid, Bool.and_eq_true] at hv
    exact inv_create cfg s c hInv hv.1.2 hv.2
  | cont_anomaly c =>
    cases c with
    | resolve k =>
      simp only [tickValid, contValid, Bool.and_eq_true, Bool.not_eq_true',
        List.isEmpty_eq_false] at hv
      show Inv cfg (continue_anomaly s (.resolve k)).2
      rw [continue_anomaly_resolve s k hv.2]
      exact inv_resolve cfg s k hInv hv.2
    | ongoing k n v =>
      have h := continue_anomaly_ongoing_state s k n v
      exact inv_congr h.1 h.2 hInv
  | normal n comp sev i =>
    have h := applyTick_normal_state s n comp sev i
    exact inv_congr h.1 h.2 hInv

theorem reachable_inv {cfg : Config} {s : SimState} (h : Reachable cfg s) :
    Inv cfg s := by
  induction h with
  | init t0 ivs => exact inv_init cfg t0 ivs
  | step s c _ hv ih => exact inv_applyTick cfg s c ih hv

/-! ## Clock monotonicity through ticks -/

theorem headI_mem {l : List Nat} (h : l ≠ []) : l.headI ∈ l := by
  cases l with
  | nil => exact absurd rfl h
  | cons a t => exact List.mem_cons_self a t

theorem create_anomaly_spans (s : SimState) (c : CreateChoice) (h : nonnegIvs s) :
    spans s.currentTime (create_anomaly s c).1 (create_anomaly s c).2.2.currentTime := by
  cases c with
  | memory_errors node cnt =>
    show spans _ (emitMany (setNodeStatus s node "MEMORY_ERROR") _).1
      ((setActive _ _ _).currentTime)
    rw [setActive_currentTime]
    exact emitMany_spans _ (setNodeStatus s node "MEMORY_ERROR")
      (nonnegIvs_congr (setNodeStatus_ivs s node _) h)
  | network_partition st len =>
    show spans _ (emitMany s _).1 ((setActive _ _ _).currentTime)
    rw [setActive_currentTime]
    exact emitMany_spans _ s h
  | rack_power_failure r =>
    show spans _ (emitMany s _).1 ((setActive _ _ _).currentTime)
    rw [setActive_currentTime]
    exact emitMany_spans _ s h
  | filesystem_corruption ns fs =>
    show spans _ (emitMany s _).1 ((setActive _ _ _).currentTime)
    rw [setActive_currentTime]
    exact emitMany_spans _ s h
  | overheating st len temps =>
    show spans _ (emitMany s _).1 ((setActive _ _ _).currentTime)
    rw [setActive_currentTime]
    exact emitMany_spans _ s h

theorem resolveAnomaly_spans (s : SimState) (k : AnomalyKind) (h : nonnegIvs s) :
    spans s.currentTime (resolveAnomaly s k).1 (resolveAnomaly s k).2.currentTime := by
  cases k <;>
  · show spans _ (emitMany s _).1 ((setActive _ _ _).currentTime)
    rw [setActive_currentTime]
    exact emitMany_spans _ s h

theorem continue_anomaly_spans (s : SimState) (c : ContinueChoice) (h : nonnegIvs s) :
    spans s.currentTime (continue_anomaly s c).1 (continue_anomaly s c).2.currentTime := by
  unfold continue_anomaly
  split
  · exact spans_nil (le_refl _)
  · cases c with
    | resolve k => exact resolveAnomaly_spans s k h
    | ongoing k n v =>
      dsimp only
      split
      · exact spans_nil (le_refl _)
      · exact emitMany_spans _ s h

theorem applyTick_normal_eq (s : SimState) (n : Nat) (comp sev : String) (i : Nat) :
    applyTick s (.normal n comp sev i) =
      ([(emitOne s { setSt := none, nodeId := n, component := comp, severity := sev,
                     template := (message_templates comp).getD i "" }).1],
        (emitOne s { setSt := none, nodeId := n, component := comp, severity := sev,
                     template := (message_templates comp).getD i "" }).2) := rfl

theorem applyTick_spans (s : SimState) (c : TickChoice) (h : nonnegIvs s) :
    spans s.currentTime (applyTick s c).1 (applyTick s c).2.currentTime := by
  cases c with
  | start_anomaly c => exact create_anomaly_spans s c h
  | cont_anomaly c => exact continue_anomaly_spans s c h
  | normal n comp sev i =>
    rw [applyTick_normal_eq]
    exact emitOne_spans s _ h

theorem applyTick_ivs (s : SimState) (c : TickChoice) :
    (applyTick s c).2.ivs = s.ivs := by
  cases c with
  | start_anomaly c => exact create_anomaly_ivs s c
  | cont_anomaly c => exact continue_anomaly_ivs s c
  | normal n comp sev i =>
    rw [applyTick_normal_eq]
    exact emitOne_snd_ivs s _

theorem generate_logs_spans : ∀ (cs : List TickChoice) (s : SimState), nonnegIvs s →
    spans s.currentTime (generate_logs s cs).1 (generate_logs s cs).2.currentTime
  | [], s, _ => spans_nil (le_refl _)
  | c :: cs, s, h => by
    have h1 := applyTick_spans s c h
    have h2 := generate_logs_spans cs (applyTick s c).2
      (nonnegIvs_congr (applyTick_ivs s c) h)
    exact spans_trans h1 h2

/-! ## Record counts per tick -/

theorem resolveAnomaly_length_pos (s : SimState) (k : AnomalyKind)
    (hk : s.active k ≠ []) : 1 ≤ (resolveAnomaly s k).1.length := by
  have hlen : 1 ≤ (s.active k).length := List.length_pos.mpr hk
  cases k <;>
    simp only [resolveAnomaly, emitMany_length, List.length_cons, List.length_map,
      List.length_singleton] <;>
    omega

theorem applyTick_length_pos (cfg : Config) (s : SimState) (c : TickChoice)
    (hv : tickValid cfg s c = true) : 1 ≤ (applyTick s c).1.length := by
  cases c with
  | start_anomaly c =>
    simp only [tickValid, Bool.and_eq_true] at hv
    have hcv := hv.2
    cases c with
    | network_partition st len =>
      simp only [createValid, Bool.and_eq_true, decide_eq_true_eq] at hcv
      show 1 ≤ (emitMany s _).1.length
      rw [emitMany_length, List.length_map, List.length_range']
      omega
    | rack_power_failure r =>
      show 1 ≤ (emitMany s _).1.length
      rw [emitMany_length, List.length_cons]
      omega
    | filesystem_corruption ns fs =>
      simp only [createValid, Bool.and_eq_true, decide_eq_true_eq] at hcv
      show 1 ≤ (emitMany s _).1.length
      rw [emitMany_length, List.length_map]
      omega
    | memory_errors node cnt =>
      simp only [createValid, Bool.and_eq_true, decide_eq_true_eq] at hcv
      show 1 ≤ (emitMany _ _).1.length
      rw [emitMany_length, List.length_map, List.length_range]
      omega
    | overheating st len temps =>
      simp only [createValid, Bool.and_eq_true, decide_eq_true_eq] at hcv
      show 1 ≤ (emitMany s _).1.length
      rw [emitMany_length, List.length_map, List.length_zip, List.length_range']
      have h1 := hcv.1.1.2
      have h2 := hcv.1.2
      omega
  | cont_anomaly c =>
    simp only [tickValid, Bool.and_eq_true, Bool.not_eq_true'] at hv
    cases c with
    | resolve k =>
      simp only [contValid, Bool.not_eq_true', List.isEmpty_eq_false] at hv
      show 1 ≤ (continue_anomaly s (.resolve k)).1.length
      rw [continue_anomaly_resolve s k hv.2]
      exact resolveAnomaly_length_pos s k hv.2
    | ongoing k n v =>
      simp only [contValid, Bool.and_eq_true, Bool.not_eq_true',
        List.isEmpty_eq_false] at hv
      show 1 ≤ (continue_anomaly s (.ongoing k n v)).1.length
      unfold continue_anomaly
      rw [allInactive_eq_false_of hv.2.1.1]
      simp only [Bool.false_eq_true, if_false]
      rw [if_neg (by simp only [List.isEmpty_iff]; exact hv.2.1.1)]
      rw [emitMany_length]
      simp
  | normal n comp sev i => exact le_refl _

/-! ## Node-id bounds of emitted records -/

theorem create_anomaly_nodeId_mem (s : SimState) (c : CreateChoice) (r : LogRecord)
    (hr : r ∈ (create_anomaly s c).1) : r.nodeId ∈ affectedOf c := by
  have hs : r.nodeId ∈ ((create_anomaly s c).1).map LogRecord.nodeId :=
    List.mem_map_of_mem _ hr
  cases c with
  | network_partition st len =>
    simp only [create_anomaly, affectedOf] at hs ⊢
    rw [emitMany_nodeIds, List.map_map] at hs
    rcases List.mem_map.mp hs with ⟨a, ha, he⟩
    rw [← he]
    exact ha
  | rack_power_failure r' =>
    simp only [create_anomaly, affectedOf] at hs ⊢
    rw [emitMany_nodeIds, List.map_cons, List.map_map] at hs
    rcases List.mem_cons.mp hs with h | h
    · have h' : r.nodeId = r' * 32 := h
      rw [h']
      exact List.mem_range'_1.mpr ⟨le_refl _, by omega⟩
    · rcases List.mem_map.mp h with ⟨a, ha, he⟩
      rw [← he]
      exact ha
  | filesystem_corruption ns fs =>
    simp only [create_anomaly, affectedOf] at hs ⊢
    rw [emitMany_nodeIds, List.map_map] at hs
    rcases List.mem_map.mp hs with ⟨a, ha, he⟩
    rw [← he]
    exact ha
  | memory_errors node cnt =>
    simp only [create_anomaly, affectedOf] at hs ⊢
    rw [emitMany_nodeIds, List.map_map] at hs
    rcases List.mem_map.mp hs with ⟨a, -, he⟩
    rw [← he]
    exact List.mem_singleton.mpr rfl
  | overheating st len temps =>
    simp only [create_anomaly, affectedOf] at hs ⊢
    rw [emitMany_nodeIds, List.map_map] at hs
    rcases List.mem_map.mp hs with ⟨p, hp, he⟩
    rw [← he]
    exact (List.of_mem_zip hp).1

theorem resolveAnomaly_nodeId_mem (s : SimState) (k : AnomalyKind) (r : LogRecord)
    (hk : s.active k ≠ []) (hr : r ∈ (resolveAnomaly s k).1) :
    r.nodeId ∈ s.active k := by
  have hs : r.nodeId ∈ ((resolveAnomaly s k).1).map LogRecord.nodeId :=
    List.mem_map_of_mem _ hr
  cases k with
  | network_partition =>
    simp only [resolveAnomaly] at hs
    rw [emitMany_nodeIds, List.map_map] at hs
    rcases List.mem_map.mp hs with ⟨a, ha, he⟩
    rw [← he]
    exact ha
  | rack_power_failure =>
    simp only [resolveAnomaly] at hs
    rw [emitMany_nodeIds, List.map_cons, List.map_map] at hs
    rcases List.mem_cons.mp hs with h | h
    · rw [h]
      exact headI_mem hk
    · rcases List.mem_map.mp h with ⟨a, ha, he⟩
      rw [← he]
      exact ha
  | filesystem_corruption =>
    simp only [resolveAnomaly] at hs
    rw [emitMany_nodeIds, List.map_map] at hs
    rcases List.mem_map.mp hs with ⟨a, ha, he⟩
    rw [← he]
    exact ha
  | memory_errors =>
    simp only [resolveAnomaly] at hs
    rw [emitMany_nodeIds, List.map_cons, List.map_nil] at hs
    rw [List.mem_singleton.mp hs]
    exact headI_mem hk
  | overheating =>
    simp only [resolveAnomaly] at hs
    rw [emitMany_nodeIds, List.map_map] at hs
    rcases List.mem_map.mp hs with ⟨a, ha, he⟩
    rw [← he]
    exact ha

theorem applyTick_nodeId_lt (cfg : Config) (s : SimState) (c : TickChoice)
    (hInv : Inv cfg s) (hv : tickValid cfg s c = true) :
    ∀ r ∈ (applyTick s c).1, r.nodeId < cfg.num_nodes := by
  intro r hr
  cases c with
  | start_anomaly c =>
    simp only [tickValid, Bool.and_eq_true] at hv
    exact affected_lt cfg c hv.2 r.nodeId (create_anomaly_nodeId_mem s c r hr)
  | cont_anomaly c =>
    simp only [tickValid, Bool.and_eq_true, Bool.not_eq_true'] at hv
    cases c with
    | resolve k =>
      simp only [contValid, Bool.not_eq_true', List.isEmpty_eq_false] at hv
      rw [show applyTick s (.cont_anomaly (.resolve k)) = continue_anomaly s (.resolve k)
        from rfl, continue_anomaly_resolve s k hv.2] at hr
      exact hInv.mem_lt k r.nodeId (resolveAnomaly_nodeId_mem s k r hv.2 hr)
    | ongoing k n v =>
      simp only [contValid, Bool.and_eq_true, Bool.not_eq_true',
        List.isEmpty_eq_false, decide_eq_true_eq] at hv
      have hrr : r ∈ (continue_anomaly s (.ongoing k n v)).1 := hr
      unfold continue_anomaly at hrr
      rw [allInactive_eq_false_of hv.2.1.1] at hrr
      simp only [Bool.false_eq_true, if_false] at hrr
      rw [if_neg (by simp only [List.isEmpty_iff]; exact hv.2.1.1)] at hrr
      have hsid : r.nodeId ∈ ((emitMany s _).1).map LogRecord.nodeId :=
        List.mem_map_of_mem _ hrr
      rw [emitMany_nodeIds, List.map_cons, List.map_nil] at hsid
      rw [List.mem_singleton.mp hsid]
      exact hInv.mem_lt k n hv.2.1.2
  | normal n comp sev i =>
    simp only [tickValid, Bool.and_eq_true, decide_eq_true_eq] at hv
    rw [applyTick_normal_eq] at hr
    rcases List.mem_singleton.mp hr with rfl
    exact hv.1.1.1.2

/-! ## Run-level lemmas -/

theorem generate_logs_length_ge (cfg : Config) : ∀ (cs : List TickChoice) (s : SimState),
    validRun cfg s cs = true → cs.length ≤ (generate_logs s cs).1.length
  | [], _, _ => le_refl _
  | c :: cs, s, hv => by
    simp only [validRun, Bool.and_eq_true] at hv
    show cs.length + 1 ≤ ((applyTick s c).1 ++ (generate_logs (applyTick s c).2 cs).1).length
    rw [List.length_append]
    have h1 := applyTick_length_pos cfg s c hv.1
    have h2 := generate_logs_length_ge cfg cs (applyTick s c).2 hv.2
    omega

theorem allInactive_congr {s s' : SimState} (h : s'.active = s.active) :
    allInactive s' = allInactive s := by
  unfold allInactive
  rw [h]

theorem generate_logs_length_eq_of_p0 (cfg : Config)
    (hp : cfg.anomaly_probability = 0) : ∀ (cs : List TickChoice) (s : SimState),
    allInactive s = true → validRun cfg s cs = true →
    (generate_logs s cs).1.length = cs.length
  | [], _, _, _ => rfl
  | c :: cs, s, hall, hv => by
    simp only [validRun, Bool.and_eq_true] at hv
    cases c with
    | start_anomaly c =>
      exfalso
      simp only [tickValid, hp, Bool.and_eq_true, decide_eq_true_eq] at hv
      exact absurd hv.1.1.1 (lt_irrefl 0)
    | cont_anomaly c =>
      exfalso
      simp only [tickValid, Bool.and_eq_true, Bool.not_eq_true'] at hv
      rw [hall] at hv
      cases hv.1.1
    | normal n comp sev i =>
      show ((applyTick s (.normal n comp sev i)).1 ++
        (generate_logs (applyTick s (.normal n comp sev i)).2 cs).1).length = cs.length + 1
      rw [List.length_append]
      have hall' : allInactive (applyTick s (.normal n comp sev i)).2 = true := by
        rw [allInactive_congr (applyTick_normal_state s n comp sev i).2]
        exact hall
      rw [generate_logs_length_eq_of_p0 cfg hp cs _ hall' hv.2]
      rw [applyTick_normal_eq]
      simp [Nat.add_comm]

theorem generate_logs_nodeId_lt (cfg : Config) : ∀ (cs : List TickChoice) (s : SimState),
    Inv cfg s → validRun cfg s cs = true →
    ∀ r ∈ (generate_logs s cs).1, r.nodeId < cfg.num_nodes
  | [], _, _, _, r, hr => absurd hr (List.not_mem_nil r)
  | c :: cs, s, hInv, hv, r, hr => by
    simp only [validRun, Bool.and_eq_true] at hv
    have hr' : r ∈ (applyTick s c).1 ++ (generate_logs (applyTick s c).2 cs).1 := hr
    rcases List.mem_append.mp hr' with h | h
    · exact applyTick_nodeId_lt cfg s c hInv hv.1 r h
    · exact generate_logs_nodeId_lt cfg cs (applyTick s c).2
        (inv_applyTick cfg s c hInv hv.1) hv.2 r h

/-! ## Helper: severity list of a memory-error cascade -/

theorem memorySeverity_range (cnt : Nat) (h3 : 3 ≤ cnt) :
    (List.range cnt).map (fun i => memorySeverity i cnt) =
      "WARNING" :: "WARNING" :: (List.replicate (cnt - 3) "ERROR" ++ ["FATAL"]) := by
  obtain ⟨m, rfl⟩ : ∃ m, cnt = m + 3 := ⟨cnt - 3, by omega⟩
  have h1 : List.range (m + 3) = List.range' 0 2 ++ List.range' 2 (m + 1) := by
    rw [List.range_eq_range']
    have := List.range'_append 0 2 (m + 1) 1
    simp only [Nat.mul_one, Nat.one_mul] at this
    rw [this]
  have h2 : List.range' 2 (m + 1) = List.range' 2 m ++ [2 + m] := by
    rw [List.range'_concat]
    simp
  rw [h1, h2, List.map_append, List.map_append]
  have e0 : (List.range' 0 2).map (fun i => memorySeverity i (m + 3)) =
      ["WARNING", "WARNING"] := rfl
  have e1 : (List.range' 2 m).map (fun i => memorySeverity i (m + 3)) =
      List.replicate m "ERROR" := by
    rw [List.eq_replicate_iff]
    refine ⟨by rw [List.length_map, List.length_range'], ?_⟩
    intro b hb
    rcases List.mem_map.mp hb with ⟨i, hi, rfl⟩
    rcases List.mem_range'_1.mp hi with ⟨hi1, hi2⟩
    unfold memorySeverity
    rw [if_neg (by omega), if_pos (by omega)]
  have e2 : ([2 + m]).map (fun i => memorySeverity i (m + 3)) = ["FATAL"] := by
    have : memorySeverity (2 + m) (m + 3) = "FATAL" := by
      unfold memorySeverity
      rw [if_neg (by omega), if_neg (by omega)]
    simp [this]
  rw [e0, e1, e2]
  simp

/-! ## The claims -/

/-- C1: for every configuration with `num_nodes ≥ 100`, `generate_logs`
returns at least one record per tick, hence at least `count` records; and
with `anomaly_probability = 0` and `num_nodes > 0` every tick of a run from a
fresh simulator emits exactly one record, so exactly `count` records. -/
theorem claim1_generate_logs_count (cfg : Config) (t0 : ℚ) (ivs : Nat → ℚ)
    (cs : List TickChoice) :
    (100 ≤ cfg.num_nodes → ∀ s : SimState, validRun cfg s cs = true →
      cs.length ≤ (generate_logs s cs).1.length) ∧
    (cfg.anomaly_probability = 0 → 0 < cfg.num_nodes →
      validRun cfg (initState t0 ivs) cs = true →
      (generate_logs (initState t0 ivs) cs).1.length = cs.length) := by
  constructor
  · intro _ s hv
    exact generate_logs_length_ge cfg cs s hv
  · intro hp _ hv
    exact generate_logs_length_eq_of_p0 cfg hp cs _ rfl hv

/-- C2: every record of every valid run of `generate_logs` from a fresh
simulator with `num_nodes ≥ 100` carries a node id in `[0, num_nodes)` —
normal logs, onset records of all five kinds, continuation and resolution
records alike. -/
theorem claim2_node_ids_in_range (cfg : Config) (t0 : ℚ) (ivs : Nat → ℚ)
    (cs : List TickChoice) (h100 : 100 ≤ cfg.num_nodes)
    (hv : validRun cfg (initState t0 ivs) cs = true) :
    ∀ r ∈ (generate_logs (initState t0 ivs) cs).1, r.nodeId < cfg.num_nodes :=
  generate_logs_nodeId_lt cfg cs _ (inv_init cfg t0 ivs) hv

/-- C3: at every reachable state, taking the resolution branch of
`_continue_anomaly` for a kind with a non-empty registry entry restores every
node of that entry to OPERATIONAL, emits only INFO records — one per affected
node, plus a master record exactly for `rack_power_failure` — and clears the
kind's registry entry. -/
theorem claim3_resolution (cfg : Config) (s : SimState) (k : AnomalyKind)
    (h : Reachable cfg s) (hk : s.active k ≠ []) :
    (∀ n ∈ s.active k,
      (continue_anomaly s (.resolve k)).2.nodeStatus n = "OPERATIONAL") ∧
    (∀ r ∈ (continue_anomaly s (.resolve k)).1, r.severity = "INFO") ∧
    (continue_anomaly s (.resolve k)).1.length =
      (s.active k).length + (if k = AnomalyKind.rack_power_failure then 1 else 0) ∧
    (continue_anomaly s (.resolve k)).2.active k = [] := by
  have hInv := reachable_inv h
  rw [continue_anomaly_resolve s k hk]
  refine ⟨?_, ?_, ?_, ?_⟩
  · intro n hn
    rw [resolveAnomaly_nodeStatus s k hk hInv.memory_one n, if_pos hn]
  · exact fun r hr => resolveAnomaly_severity s k r hr
  · exact resolveAnomaly_length s k hk hInv.memory_one
  · rw [resolveAnomaly_active]
    simp

/-- C4: in every run of `generate_logs` whose clock increments are
nonnegative (as `random.random() * 5` always is), the timestamps of the
returned records are non-decreasing in sequence order — including ticks where
a `{timestamp}` placeholder advances the clock an extra time before the
record is stamped. -/
theorem claim4_timestamps_monotone (cfg : Config) (s : SimState)
    (cs : List TickChoice) (hiv : nonnegIvs s) (hv : validRun cfg s cs = true) :
    List.Sorted (· ≤ ·) (((generate_logs s cs).1).map LogRecord.time) :=
  spans_sorted (generate_logs_spans cs s hiv)

/-- C5 counterexample: the claim that some state reachable by the generation
loop has two distinct anomaly kinds simultaneously active (two non-empty
registry entries) is false: no such reachable state exists for any
configuration. -/
theorem claim5_counterexample :
    ¬ ∃ (cfg : Config) (s : SimState), Reachable cfg s ∧
      ∃ k k' : AnomalyKind, k ≠ k' ∧ s.active k ≠ [] ∧ s.active k' ≠ [] := by
  rintro ⟨cfg, s, hr, k, k', hne, h1, h2⟩
  exact hne ((reachable_inv hr).single k k' h1 h2)

/-- C5 amended: at every reachable state at most one anomaly kind has a
non-empty node list (kinds active at the same time are equal), and the engine
only admits an onset tick when no anomaly kind is active at all. -/
theorem claim5_amended (cfg : Config) (s : SimState) (h : Reachable cfg s) :
    (∀ k k' : AnomalyKind, s.active k ≠ [] → s.active k' ≠ [] → k = k') ∧
    (∀ c : CreateChoice, tickValid cfg s (.start_anomaly c) = true →
      allInactive s = true) := by
  refine ⟨(reachable_inv h).single, ?_⟩
  intro c hv
  simp only [tickValid, Bool.and_eq_true] at hv
  exact hv.1.2

/-- C6: every `rack_power_failure` onset with a valid draw (which requires
`num_nodes ≥ 32`) affects exactly the 32 contiguous nodes
`rack_id*32 .. rack_id*32+31`, powers each of them off, and emits one FATAL
master POWER record followed by one ERROR POWER record per affected node, in
node order. -/
theorem claim6_rack_power_failure (cfg : Config) (s : SimState) (rack_id : Nat)
    (hv : createValid cfg (.rack_power_failure rack_id) = true) :
    (create_anomaly s (.rack_power_failure rack_id)).2.1 =
      List.range' (rack_id * 32) 32 ∧
    (∀ n ∈ List.range' (rack_id * 32) 32,
      (create_anomaly s (.rack_power_failure rack_id)).2.2.nodeStatus n =
        "POWERED_OFF") ∧
    ((create_anomaly s (.rack_power_failure rack_id)).1).map
        (fun r => (r.nodeId, r.component, r.severity)) =
      (rack_id * 32, "POWER", "FATAL") ::
        (List.range' (rack_id * 32) 32).map (fun n => (n, "POWER", "ERROR")) := by
  refine ⟨create_anomaly_affected s _, ?_, ?_⟩
  · intro n hn
    rw [create_anomaly_nodeStatus cfg s _ hv n]
    rw [show affectedOf (.rack_power_failure rack_id) = List.range' (rack_id * 32) 32
      from rfl, if_pos hn]
    rfl
  · show ((emitMany s _).1).map _ = _
    rw [emitMany_fst_meta, List.map_cons, List.map_map]
    rfl

/-- C7: every `memory_errors` onset with a valid draw targets a single node,
marks it MEMORY_ERROR, and emits a cascade of `error_count ∈ [3,10]` MEMORY
records on that node whose severities are WARNING, WARNING, then ERROR for
all intermediate records, then FATAL. -/
theorem claim7_memory_cascade (cfg : Config) (s : SimState) (node cnt : Nat)
    (hv : createValid cfg (.memory_errors node cnt) = true) :
    (create_anomaly s (.memory_errors node cnt)).2.1 = [node] ∧
    (create_anomaly s (.memory_errors node cnt)).2.2.nodeStatus node =
      "MEMORY_ERROR" ∧
    3 ≤ cnt ∧ cnt ≤ 10 ∧
    ((create_anomaly s (.memory_errors node cnt)).1).map LogRecord.severity =
      "WARNING" :: "WARNING" :: (List.replicate (cnt - 3) "ERROR" ++ ["FATAL"]) ∧
    ((create_anomaly s (.memory_errors node cnt)).1).map LogRecord.component =
      List.replicate cnt "MEMORY" ∧
    ((create_anomaly s (.memory_errors node cnt)).1).map LogRecord.nodeId =
      List.replicate cnt node := by
  have hv' := hv
  simp only [createValid, Bool.and_eq_true, decide_eq_true_eq] at hv'
  refine ⟨create_anomaly_affected s _, ?_, hv'.1.2, hv'.2, ?_, ?_, ?_⟩
  · rw [create_anomaly_nodeStatus cfg s _ hv node]
    rw [show affectedOf (.memory_errors node cnt) = [node] from rfl,
      if_pos (List.mem_singleton.mpr rfl)]
    rfl
  · show ((emitMany _ _).1).map _ = _
    rw [emitMany_severities, List.map_map]
    exact memorySeverity_range cnt hv'.1.2
  · show ((emitMany _ _).1).map _ = _
    rw [emitMany_components, List.map_map]
    have : (List.range cnt).map (fun _ => "MEMORY") = List.replicate cnt "MEMORY" := by
      rw [List.map_const', List.length_range]
    exact this
  · show ((emitMany _ _).1).map _ = _
    rw [emitMany_nodeIds, List.map_map]
    have : (List.range cnt).map (fun _ => node) = List.replicate cnt node := by
      rw [List.map_const', List.length_range]
    exact this

/-- C8 counterexample: the network-partition start node is drawn by Python's
inclusive `randint(0, num_nodes - 100)`, so with `num_nodes = 150` the draw
`start = 50 = num_nodes - 100` is valid (and fires as an actual onset tick of
a fresh simulator), refuting the half-open range `[0, N-100)` of the claim. -/
theorem claim8_counterexample :
    tickValid cfg150 (initState 0 fun _ => 1)
      (.start_anomaly (.network_partition 50 10)) = true ∧
    (create_anomaly (initState 0 fun _ => 1)
      (.network_partition 50 10)).2.1.headI = 50 ∧
    ¬ (50 < 150 - 100) := by
  refine ⟨by decide, rfl, by decide⟩

/-- C8 amended: every `network_partition` onset with a valid draw (requiring
`num_nodes ≥ 100`) affects the contiguous range of `len ∈ [10,100]` node ids
starting at `start ∈ [0, num_nodes - 100]` (inclusive upper end), emits one
ERROR NETWORK record per affected node in order, and marks each affected node
NETWORK_DEGRADED. -/
theorem claim8_amended (cfg : Config) (s : SimState) (start_node len : Nat)
    (hv : createValid cfg (.network_partition start_node len) = true) :
    start_node ≤ cfg.num_nodes - 100 ∧ 10 ≤ len ∧ len ≤ 100 ∧
    (create_anomaly s (.network_partition start_node len)).2.1 =
      List.range' start_node len ∧
    (∀ n ∈ List.range' start_node len,
      (create_anomaly s (.network_partition start_node len)).2.2.nodeStatus n =
        "NETWORK_DEGRADED") ∧
    ((create_anomaly s (.network_partition start_node len)).1).map
        (fun r => (r.nodeId, r.component, r.severity)) =
      (List.range' start_node len).map (fun n => (n, "NETWORK", "ERROR")) := by
  have hv' := hv
  simp only [createValid, Bool.and_eq_true, decide_eq_true_eq] at hv'
  refine ⟨hv'.1.1.2, hv'.1.2, hv'.2, create_anomaly_affected s _, ?_, ?_⟩
  · intro n hn
    rw [create_anomaly_nodeStatus cfg s _ hv n]
    rw [show affectedOf (.network_partition start_node len) = List.range' start_node len
      from rfl, if_pos hn]
    rfl
  · show ((emitMany s _).1).map _ = _
    rw [emitMany_fst_meta, List.map_map]
    rfl

/-- C9: when no anomaly kind has a non-empty registry entry,
`_continue_anomaly` returns the empty sequence and leaves the whole simulator
state — statuses, registry, clock — unchanged, whatever branch the draws
would have selected; in particular resolving an INACTIVE kind is a no-op. -/
theorem claim9_continue_empty_noop (s : SimState) (c : ContinueChoice)
    (h : allInactive s = true) : continue_anomaly s c = ([], s) := by
  unfold continue_anomaly
  rw [if_pos h]

/-- C10: at every state reachable through `generate_logs` from a fresh
simulator, a node's status differs from OPERATIONAL exactly when its id is
registered under some anomaly kind, and then its status is that kind's
degraded status. -/
theorem claim10_status_iff_registered (cfg : Config) (s : SimState)
    (h : Reachable cfg s) (n : Nat) :
    (s.nodeStatus n ≠ "OPERATIONAL" ↔ ∃ k, n ∈ s.active k) ∧
    (∀ k, n ∈ s.active k → s.nodeStatus n = degradedStatus k) := by
  have hInv := reachable_inv h
  refine ⟨⟨hInv.status_mem n, ?_⟩, fun k hm => hInv.mem_status k n hm⟩
  rintro ⟨k, hm⟩
  rw [hInv.mem_status k n hm]
  exact degradedStatus_ne k

/-! ## Witnesses: each claim theorem applied at a concrete input -/

/-- C1 witness: a three-tick normal run of a 128-node, zero-probability
simulator has at least — and exactly — three records. -/
theorem claim1_witness :
    3 ≤ (generate_logs sInit [.normal 3 "KERNEL" "INFO" 0, .normal 4 "MEMORY" "WARNING" 1,
      .normal 5 "NETWORK" "ERROR" 2]).1.length ∧
    (generate_logs sInit [.normal 3 "KERNEL" "INFO" 0, .normal 4 "MEMORY" "WARNING" 1,
      .normal 5 "NETWORK" "ERROR" 2]).1.length = 3 := by
  have h := claim1_generate_logs_count cfgP0 0 (fun _ => 1)
    [.normal 3 "KERNEL" "INFO" 0, .normal 4 "MEMORY" "WARNING" 1,
     .normal 5 "NETWORK" "ERROR" 2]
  exact ⟨h.1 (by decide) sInit (by decide), h.2 rfl (by decide) (by decide)⟩

/-- C2 witness: in a run with a memory-errors onset and its resolution, every
record's node id is below 128. -/
theorem claim2_witness :
    ((generate_logs sInit [.start_anomaly (.memory_errors 5 3),
      .cont_anomaly (.resolve .memory_errors)]).1).all
        (fun r => decide (r.nodeId < 128)) = true :=
  List.all_eq_true.mpr fun r hr => decide_eq_true
    (claim2_node_ids_in_range cfgP1 0 (fun _ => 1)
      [.start_anomaly (.memory_errors 5 3), .cont_anomaly (.resolve .memory_errors)]
      (by decide) (by decide) r hr)

/-- C3 witness: resolving the memory-errors anomaly of `sMem` restores node 5,
emits only INFO records (exactly one), and clears the registry entry. -/
theorem claim3_witness :
    (∀ n ∈ sMem.active .memory_errors,
      (continue_anomaly sMem (.resolve .memory_errors)).2.nodeStatus n =
        "OPERATIONAL") ∧
    (∀ r ∈ (continue_anomaly sMem (.resolve .memory_errors)).1,
      r.severity = "INFO") ∧
    (continue_anomaly sMem (.resolve .memory_errors)).1.length =
      (sMem.active .memory_errors).length +
        (if AnomalyKind.memory_errors = AnomalyKind.rack_power_failure then 1 else 0) ∧
    (continue_anomaly sMem (.resolve .memory_errors)).2.active .memory_errors = [] :=
  claim3_resolution cfgP1 sMem .memory_errors
    (Reachable.step sInit (.start_anomaly (.memory_errors 5 3))
      (Reachable.init 0 fun _ => 1) (by decide))
    (by decide)

/-- C4 witness: a run whose first tick renders a `{timestamp}` placeholder
(the APPLICATION checkpoint template) still has sorted record times. -/
theorem claim4_witness :
    List.Sorted (· ≤ ·) (((generate_logs sInit [.normal 3 "APPLICATION" "INFO" 2,
      .normal 4 "KERNEL" "INFO" 0]).1).map LogRecord.time) :=
  claim4_timestamps_monotone cfgP0 sInit
    [.normal 3 "APPLICATION" "INFO" 2, .normal 4 "KERNEL" "INFO" 0]
    (fun _ => zero_le_one) (by decide)

/-- C5 witness: at the reachable state `sMem`, active kinds are pairwise
equal and any valid onset tick requires full inactivity. -/
theorem claim5_witness :
    (∀ k k' : AnomalyKind, sMem.active k ≠ [] → sMem.active k' ≠ [] → k = k') ∧
    (∀ c : CreateChoice, tickValid cfgP1 sMem (.start_anomaly c) = true →
      allInactive sMem = true) :=
  claim5_amended cfgP1 sMem
    (Reachable.step sInit (.start_anomaly (.memory_errors 5 3))
      (Reachable.init 0 fun _ => 1) (by decide))

/-- C6 witness: a rack-2 power failure on a fresh 128-node simulator. -/
theorem claim6_witness :
    (create_anomaly sInit (.rack_power_failure 2)).2.1 = List.range' (2 * 32) 32 ∧
    (∀ n ∈ List.range' (2 * 32) 32,
      (create_anomaly sInit (.rack_power_failure 2)).2.2.nodeStatus n =
        "POWERED_OFF") ∧
    ((create_anomaly sInit (.rack_power_failure 2)).1).map
        (fun r => (r.nodeId, r.component, r.severity)) =
      (2 * 32, "POWER", "FATAL") ::
        (List.range' (2 * 32) 32).map (fun n => (n, "POWER", "ERROR")) :=
  claim6_rack_power_failure cfgP1 sInit 2 (by decide)

/-- C7 witness: a 4-event memory cascade on node 5 of a fresh simulator. -/
theorem claim7_witness :
    (create_anomaly sInit (.memory_errors 5 4)).2.1 = [5] ∧
    (create_anomaly sInit (.memory_errors 5 4)).2.2.nodeStatus 5 =
      "MEMORY_ERROR" ∧
    3 ≤ 4 ∧ 4 ≤ 10 ∧
    ((create_anomaly sInit (.memory_errors 5 4)).1).map LogRecord.severity =
      "WARNING" :: "WARNING" :: (List.replicate (4 - 3) "ERROR" ++ ["FATAL"]) ∧
    ((create_anomaly sInit (.memory_errors 5 4)).1).map LogRecord.component =
      List.replicate 4 "MEMORY" ∧
    ((create_anomaly sInit (.memory_errors 5 4)).1).map LogRecord.nodeId =
      List.replicate 4 5 :=
  claim7_memory_cascade cfgP1 sInit 5 4 (by decide)

/-- C8 witness: the boundary onset `start = 50` on the 150-node
configuration, with its full per-node record shape. -/
theorem claim8_witness :
    50 ≤ cfg150.num_nodes - 100 ∧ 10 ≤ 10 ∧ 10 ≤ 100 ∧
    (create_anomaly sInit (.network_partition 50 10)).2.1 = List.range' 50 10 ∧
    (∀ n ∈ List.range' 50 10,
      (create_anomaly sInit (.network_partition 50 10)).2.2.nodeStatus n =
        "NETWORK_DEGRADED") ∧
    ((create_anomaly sInit (.network_partition 50 10)).1).map
        (fun r => (r.nodeId, r.component, r.severity)) =
      (List.range' 50 10).map (fun n => (n, "NETWORK", "ERROR")) :=
  claim8_amended cfg150 sInit 50 10 (by decide)

/-- C9 witness: on a fresh simulator, `_continue_anomaly` is a no-op. -/
theorem claim9_witness :
    continue_anomaly sInit (.resolve .overheating) = ([], sInit) :=
  claim9_continue_empty_noop sInit (.resolve .overheating) (by decide)

/-- C10 witness: in the reachable state `sMem`, node 5 is degraded exactly
because it is registered under `memory_errors`, with status MEMORY_ERROR. -/
theorem claim10_witness :
    (sMem.nodeStatus 5 ≠ "OPERATIONAL" ↔ ∃ k, 5 ∈ sMem.active k) ∧
    (∀ k, 5 ∈ sMem.active k → sMem.nodeStatus 5 = degradedStatus k) :=
  claim10_status_iff_registered cfgP1 sMem
    (Reachable.step sInit (.start_anomaly (.memory_errors 5 3))
      (Reachable.init 0 fun _ => 1) (by decide)) 5

end BGLSim
